import Mathlib

/-!
# Verification of the AOIA operational-intelligence pipeline (ml-engine)

Shallow embedding of the Python source under `ml-engine/app` into Lean 4.

Modelling conventions:
* Python numbers (floats and ints) are modelled as exact rationals `ℚ`;
  `round(x, 2)` is modelled by `round2` (round to the nearest hundredth).
* Python dictionaries read through `.get(key, default)` are modelled by
  records with `Option` fields; a missing key is `none`.  Python truthiness
  (`a or b`, `if x:`) is modelled explicitly by the `pyOr*` / `truthy*`
  helpers (`0`, `""`, `None` and empty collections are falsy).
* Identifier strings, timestamps, uuids and free-text descriptions carry no
  decision logic and are omitted from the records.
* Detection dictionaries handed between agents are the `model_dump()` of
  `InefficiencyDetection`; `anomaly_type` / `anomaly_location` are Python
  `@property` accessors and therefore are NOT part of the dump.  Key lookup
  on a dumped detection is modelled by the total functions `Detection.getStr`
  / `Detection.getQ` / `Detection.getStrOpt` which enumerate exactly the
  dumped keys a consumer reads.
-/

namespace AOIA

/-- Python `a or b` for an optional number: `a` if present and nonzero, else `b`. -/
def pyOrQ (a : Option ℚ) (b : ℚ) : ℚ :=
  match a with
  | some x => if x = 0 then b else x
  | none => b

/-- Python `a or b` for an optional string: `a` if present and nonempty, else `b`. -/
def pyOrS (a : Option String) (b : String) : String :=
  match a with
  | some s => if s = "" then b else s
  | none => b

/-- Python truthiness of an optional number. -/
def truthyQ (a : Option ℚ) : Bool :=
  match a with
  | some x => x ≠ 0
  | none => false

/-- Python truthiness of an optional string. -/
def truthyS (a : Option String) : Bool :=
  match a with
  | some s => s ≠ ""
  | none => false

/-- Embeds `round(x, 2)`: round to the nearest hundredth. -/
def round2 (q : ℚ) : ℚ := (round (q * 100) : ℤ) / 100

/-! ## `app/services/loss_calculator.py` — `LossCalculator` -/

/-- Embeds `LossCalculator.industry_multipliers` lookup followed by `.get(industry, 1.0)`. -/
def industryMultiplier (industry : String) : ℚ :=
  if industry = "MANUFACTURING" then (12/10 : ℚ)
  else if industry = "BPO" then (8/10 : ℚ)
  else if industry = "LOGISTICS" then (11/10 : ℚ)
  else if industry = "RETAIL" then (9/10 : ℚ)
  else if industry = "HEALTHCARE" then (15/10 : ℚ)
  else if industry = "GENERAL" then (1 : ℚ)
  else (1 : ℚ)

/-- Embeds `LossCalculator.anomaly_weights` lookup followed by `.get(anomaly_type, 1.0)`. -/
def anomalyWeight (anomalyType : String) : ℚ :=
  if anomalyType = "IDLE_SPIKE" then (8/10 : ℚ)
  else if anomalyType = "THROUGHPUT_DROP" then (12/10 : ℚ)
  else if anomalyType = "RESPONSE_DELAY" then (7/10 : ℚ)
  else if anomalyType = "MACHINE_SLOWDOWN" then (13/10 : ℚ)
  else if anomalyType = "QUALITY_DECLINE" then (15/10 : ℚ)
  else if anomalyType = "OVERLOAD" then (11/10 : ℚ)
  else if anomalyType = "UNDERPERFORMANCE" then (9/10 : ℚ)
  else if anomalyType = "PATTERN_BREAK" then (6/10 : ℚ)
  else if anomalyType = "DOWNTIME" then (2 : ℚ)
  else (1 : ℚ)

/-- Exact (pre-rounding) `base_loss = deviation_impact * duration * cost`. -/
def lossBase (durationMinutes deviationPercent costPerMinute : ℚ) : ℚ :=
  (|deviationPercent| / 100) * durationMinutes * costPerMinute

/-- Exact (pre-rounding) `adjusted_loss = base_loss * industry_mult * anomaly_weight`. -/
def lossAdjusted (anomalyType industry : String)
    (durationMinutes deviationPercent costPerMinute : ℚ) : ℚ :=
  lossBase durationMinutes deviationPercent costPerMinute *
    industryMultiplier industry * anomalyWeight anomalyType

/-- Breakdown components of a single loss computation, exact (pre-rounding). -/
def lossIndustryAdjustment (anomalyType industry : String)
    (durationMinutes deviationPercent costPerMinute : ℚ) : ℚ :=
  let _ := anomalyType
  lossBase durationMinutes deviationPercent costPerMinute * (industryMultiplier industry - 1)

def lossSeverityAdjustment (anomalyType industry : String)
    (durationMinutes deviationPercent costPerMinute : ℚ) : ℚ :=
  lossBase durationMinutes deviationPercent costPerMinute *
    industryMultiplier industry * (anomalyWeight anomalyType - 1)

/-- Embeds `LossCalculator._calculate_confidence`. -/
def lossConfidence (deviation duration : ℚ) (anomalyType : String) : ℚ :=
  let c0 : ℚ := (85/100 : ℚ)
  let c1 := if |deviation| > 50 then c0 - (1/10 : ℚ) else if |deviation| > 30 then c0 - (5/100 : ℚ) else c0
  let c2 := if duration < 5 then c1 - (1/10 : ℚ) else if duration < 15 then c1 - (5/100 : ℚ) else c1
  let c3 := if anomalyType = "PATTERN_BREAK" ∨ anomalyType = "UNDERPERFORMANCE"
            then c2 - (1/10 : ℚ) else c2
  round2 (max (5/10 : ℚ) (min (95/100 : ℚ) c3))

structure LossBreakdown where
  base_loss : ℚ
  industry_adjustment : ℚ
  severity_adjustment : ℚ
  deriving DecidableEq, Repr

structure LossResult where
  estimated_loss : ℚ
  breakdown : LossBreakdown
  confidence : ℚ
  deriving DecidableEq, Repr

/-- Embeds `LossCalculator.calculate` (the returned `source` string and methodology
    text carry no logic and are omitted). -/
def lossCalculate (anomalyType : String) (durationMinutes deviationPercent : ℚ)
    (costPerMinute : ℚ := 75) (industry : String := "MANUFACTURING") : LossResult :=
  let industryMult := industryMultiplier industry
  let weight := anomalyWeight anomalyType
  let deviationImpact := |deviationPercent| / 100
  let baseLoss := deviationImpact * durationMinutes * costPerMinute
  let adjustedLoss := baseLoss * industryMult * weight
  { estimated_loss := round2 adjustedLoss
    breakdown :=
      { base_loss := round2 baseLoss
        industry_adjustment := round2 (baseLoss * (industryMult - 1))
        severity_adjustment := round2 (baseLoss * industryMult * (weight - 1)) }
    confidence := lossConfidence deviationPercent durationMinutes anomalyType }

/-! ## Input snapshot records (`run_pipeline` input / normalized data)

A snapshot dict may carry both the canonical and the legacy keys; every key a
consumer reads is a field.  `_normalize_input` returns a dict holding only the
five canonical keys; absence of the legacy keys is modelled by those list
fields being `[]`. -/

structure EntityIn where
  entity_id : Option String := none
  machine_id : Option String := none
  operator_id : Option String := none
  entity_type : Option String := none
  entity_name : Option String := none
  state : Option String := none
  machine_state : Option String := none
  idle_time_minutes : Option ℚ := none
  idle_time : Option ℚ := none
  load_percent : Option ℚ := none
  operator_load : Option ℚ := none
  queue_size : Option ℚ := none
  throughput : Option ℚ := none
  output_per_min : Option ℚ := none
  task_assignments : List String := []
  deriving DecidableEq, Repr

structure WorkItemIn where
  item_id : Option String := none
  task_id : Option String := none
  item_type : Option String := none
  item_name : Option String := none
  status : Option String := none
  handover_count : Option ℚ := none
  task_transfers : Option ℚ := none
  rework_count : Option ℚ := none
  rework_loops : Option ℚ := none
  bounce_count : Option ℚ := none
  escalation_count : Option ℚ := none
  wait_time_minutes : Option ℚ := none
  sla_remaining_minutes : Option ℚ := none
  sla_target_minutes : Option ℚ := none
  duration_minutes : Option ℚ := none
  task_duration : Option ℚ := none
  process_sequence : List String := []
  deriving DecidableEq, Repr

structure ProcessIn where
  process_id : Option String := none
  process_name : Option String := none
  bottleneck_stage : Option String := none
  deriving DecidableEq, Repr

structure Business where
  industry : Option String := none
  cost_per_hour : Option ℚ := none
  cost_per_min : Option ℚ := none
  baseline_throughput : Option ℚ := none
  baseline_output_per_min : Option ℚ := none
  baseline_items_per_hour : Option ℚ := none
  baseline_resolution_time_minutes : Option ℚ := none
  penalty_per_sla_breach : Option ℚ := none
  deriving DecidableEq, Repr

/-- The input dict of `run_pipeline` (and, after `_normalize_input`, the
    canonical snapshot).  `business = none` models an absent or empty
    `business` dict (both are falsy in `if not business:`). -/
structure Snapshot where
  entities : List EntityIn := []
  work_items : List WorkItemIn := []
  processes : List ProcessIn := []
  events : List Unit := []
  business : Option Business := none
  machines : List EntityIn := []
  shifts : List EntityIn := []
  workflows : List WorkItemIn := []
  autonomy_mode : Option String := none
  dry_run : Bool := false
  deriving DecidableEq, Repr

/-! ## `app/models/output_schemas.py` — enums and `InefficiencyDetection` -/

inductive SeverityLevel where
  | low | medium | high | critical
  deriving DecidableEq, Repr

inductive ActionStatus where
  | pending | approved | executing | completed | failed | skipped
  deriving DecidableEq, Repr

/-- The `model_dump()` of an `InefficiencyDetection` (ids, timestamps and
    free-text description omitted; they carry no downstream logic). -/
structure Detection where
  inefficiency_type : String
  location_id : String
  location_type : String
  location_name : String
  severity_score : ℚ
  severity_level : SeverityLevel
  deviation_percent : ℚ
  current_value : Option ℚ := none
  expected_value : Option ℚ := none
  deriving DecidableEq, Repr

/-- Embeds `dict.get(key, default)` for string-valued keys of a dumped detection.
    `anomaly_type` and `anomaly_location` are `@property` accessors on the
    pydantic model and are NOT dumped, so they fall through to the default. -/
def Detection.getStr (d : Detection) (key : String) (default : String) : String :=
  if key = "inefficiency_type" then d.inefficiency_type
  else if key = "location_id" then d.location_id
  else if key = "location_type" then d.location_type
  else if key = "location_name" then d.location_name
  else default

/-- Embeds `dict.get(key)` (no default) for string-valued keys of a dumped detection. -/
def Detection.getStrOpt (d : Detection) (key : String) : Option String :=
  if key = "inefficiency_type" then some d.inefficiency_type
  else if key = "location_id" then some d.location_id
  else if key = "location_type" then some d.location_type
  else if key = "location_name" then some d.location_name
  else none

/-- Embeds `dict.get(key, default)` for numeric keys of a dumped detection.
    There is no `duration_minutes` key in the dump. -/
def Detection.getQ (d : Detection) (key : String) (default : ℚ) : ℚ :=
  if key = "severity_score" then d.severity_score
  else if key = "deviation_percent" then d.deviation_percent
  else default

/-! ## `app/agents/detection_agent.py` — `DetectionAgent` -/

/-- Embeds `DetectionAgent.thresholds` (fixed; `update_thresholds` is never called
    inside the pipeline). -/
def thOverloadPercent : ℚ := 90
def thUnderutilizationPercent : ℚ := 40
def thLoadImbalanceVariance : ℚ := 20
def thIdleTimeMinutes : ℚ := 15
def thWaitTimeMinutes : ℚ := 30
def thHandoverCount : ℚ := 3
def thReworkCount : ℚ := 2
def thBounceCount : ℚ := 2
def thEscalationCount : ℚ := 2
def thQueueSize : ℚ := 10
def thSlaRemainingPercent : ℚ := 20
def thThroughputDropPercent : ℚ := 20

/-- Embeds `DetectionAgent.baselines` — mutable agent state.  Only the
    `"throughput"` entry is ever read (`_detect_entity_issues`);
    `baselines.get("throughput", 0)` yields `0` when unset. -/
structure AgentBaselines where
  throughput : Option ℚ := none
  items_per_hour : Option ℚ := none
  resolution_time : Option ℚ := none
  deriving DecidableEq, Repr

/-- Embeds `DetectionAgent._update_baselines`. -/
def updateBaselines (b : Business) (s : AgentBaselines) : AgentBaselines :=
  let s1 := if truthyQ b.baseline_throughput then { s with throughput := b.baseline_throughput } else s
  let s2 := if truthyQ b.baseline_items_per_hour then { s1 with items_per_hour := b.baseline_items_per_hour } else s1
  let s3 := if truthyQ b.baseline_resolution_time_minutes then { s2 with resolution_time := b.baseline_resolution_time_minutes } else s2
  if truthyQ b.baseline_output_per_min
  then { s3 with throughput := some ((b.baseline_output_per_min.getD 0) * 60) } else s3

/-- Severity bucketing used by `_create_detection` (cutoffs 0.3 / 0.6 / 0.85). -/
def severityLevelOf (s : ℚ) : SeverityLevel :=
  if s < (3/10 : ℚ) then .low
  else if s < (6/10 : ℚ) then .medium
  else if s < (85/100 : ℚ) then .high
  else .critical

/-- Embeds `DetectionAgent._create_detection`: clamp the severity to [0,1], then bucket. -/
def createDetection (ineffType locId locType locName : String)
    (severity deviation : ℚ)
    (currentValue : Option ℚ := none) (expectedValue : Option ℚ := none) : Detection :=
  let s := min (max severity 0) 1
  { inefficiency_type := ineffType
    location_id := locId
    location_type := locType
    location_name := locName
    severity_score := s
    severity_level := severityLevelOf s
    deviation_percent := deviation
    current_value := currentValue
    expected_value := expectedValue }

/-- Embeds `[d] if c else []` — one guarded detection. -/
def detIf (c : Prop) [Decidable c] (d : Detection) : List Detection :=
  if c then [d] else []

/-- Embeds `DetectionAgent._detect_entity_issues` (rules in source order; the
    OVERLOAD / UNDERUTILIZATION pair is an `if` / `elif`). -/
def detectEntityIssues (baselines : AgentBaselines) (e : EntityIn) : List Detection :=
  let entityId := pyOrS e.entity_id (pyOrS e.machine_id (pyOrS e.operator_id "unknown"))
  let entityType := e.entity_type.getD "entity"
  let entityName := e.entity_name.getD entityId
  let state := pyOrS e.state (e.machine_state.getD "active")
  let idleTime := e.idle_time_minutes.getD 0
  let load := pyOrQ e.load_percent (e.operator_load.getD 0)
  let queueSize := e.queue_size.getD 0
  let throughput := pyOrQ e.throughput (e.output_per_min.getD 0)
  let baseline := baselines.throughput.getD 0
  detIf (idleTime ≥ thIdleTimeMinutes)
    (createDetection "IDLE_TIME" entityId entityType entityName
      (min (idleTime / 60) 1) idleTime (some idleTime) (some 0)) ++
  detIf (state = "idle" ∨ state = "blocked" ∨ state = "offline" ∨ state = "down")
    (createDetection
      (if state = "blocked" then "BLOCKED"
       else if state = "offline" ∨ state = "down" then "OFFLINE" else "IDLE_TIME")
      entityId entityType entityName
      (if state = "idle" then (4/10 : ℚ) else if state = "blocked" then (7/10 : ℚ)
       else if state = "offline" then (8/10 : ℚ) else if state = "down" then (9/10 : ℚ) else (5/10 : ℚ))
      100) ++
  (if load ≥ thOverloadPercent then
    [createDetection "OVERLOAD" entityId entityType entityName
      (min ((load - 80) / 20) 1) (load - 80) (some load) (some 80)]
   else if load > 0 ∧ load < thUnderutilizationPercent then
    [createDetection "UNDERUTILIZATION" entityId entityType entityName
      (min ((thUnderutilizationPercent - load) / 40) (7/10 : ℚ))
      (thUnderutilizationPercent - load) (some load) (some thUnderutilizationPercent)]
   else []) ++
  detIf (queueSize ≥ thQueueSize)
    (createDetection "QUEUE_OVERFLOW" entityId entityType entityName
      (min (queueSize / 20) 1) (queueSize - thQueueSize) (some queueSize) (some thQueueSize)) ++
  detIf (throughput ≠ 0 ∧ baseline ≠ 0 ∧
         throughput < baseline * (1 - thThroughputDropPercent / 100))
    (createDetection "LOW_THROUGHPUT" entityId entityType entityName
      (min ((baseline - throughput) / baseline * 100 / 50) 1)
      ((baseline - throughput) / baseline * 100) (some throughput) (some baseline))

/-- The identifying fields of a work item (`item_id` / `item_type` /
    `item_name` resolution at the top of `_detect_work_item_issues`). -/
def wiId (item : WorkItemIn) : String := pyOrS item.item_id (pyOrS item.task_id "unknown")

def wiType (item : WorkItemIn) : String := item.item_type.getD "work_item"

def wiName (item : WorkItemIn) : String := item.item_name.getD (wiId item)

/-- EXCESSIVE HANDOVERS rule of `_detect_work_item_issues`. -/
def wiHandoverDets (item : WorkItemIn) : List Detection :=
  let handovers := pyOrQ item.handover_count (item.task_transfers.getD 0)
  detIf (handovers ≥ thHandoverCount)
    (createDetection "EXCESSIVE_HANDOVERS" (wiId item) (wiType item) (wiName item)
      (min (handovers / 8) 1) (handovers * 15) (some handovers) (some thHandoverCount))

/-- REWORK rule. -/
def wiReworkDets (item : WorkItemIn) : List Detection :=
  let rework := pyOrQ item.rework_count (item.rework_loops.getD 0)
  detIf (rework ≥ thReworkCount)
    (createDetection "REWORK" (wiId item) (wiType item) (wiName item)
      (min (rework / 5) 1) (rework * 25) (some rework) (some 0))

/-- BOUNCE BACK rule. -/
def wiBounceDets (item : WorkItemIn) : List Detection :=
  let bounces := item.bounce_count.getD 0
  detIf (bounces ≥ thBounceCount)
    (createDetection "BOUNCE" (wiId item) (wiType item) (wiName item)
      (min (bounces / 5) 1) (bounces * 20) (some bounces) (some 0))

/-- ESCALATIONS rule. -/
def wiEscalationDets (item : WorkItemIn) : List Detection :=
  let escalations := item.escalation_count.getD 0
  detIf (escalations ≥ thEscalationCount)
    (createDetection "ESCALATION" (wiId item) (wiType item) (wiName item)
      (min (escalations / 4) 1) (escalations * 20) (some escalations) (some 0))

/-- WAIT TIME rule. -/
def wiWaitDets (item : WorkItemIn) : List Detection :=
  let waitTime := item.wait_time_minutes.getD 0
  detIf (waitTime ≥ thWaitTimeMinutes)
    (createDetection "WAIT_TIME" (wiId item) (wiType item) (wiName item)
      (min (waitTime / 120) 1) waitTime (some waitTime) (some 0))

/-- SLA rule (`if` / `elif` under the presence/truthiness guard). -/
def wiSlaDets (item : WorkItemIn) : List Detection :=
  match item.sla_remaining_minutes with
  | none => []
  | some slaRemaining =>
    if truthyQ item.sla_target_minutes then
      let slaTarget := item.sla_target_minutes.getD 0
      let pctRemaining := slaRemaining / slaTarget * 100
      if pctRemaining ≤ 0 then
        [createDetection "SLA_BREACH" (wiId item) (wiType item) (wiName item)
          1 |slaRemaining| (some slaRemaining) (some 0)]
      else if pctRemaining ≤ thSlaRemainingPercent then
        [createDetection "SLA_RISK" (wiId item) (wiType item) (wiName item)
          (min ((thSlaRemainingPercent - pctRemaining) / thSlaRemainingPercent + 5/10) 1)
          (thSlaRemainingPercent - pctRemaining) (some slaRemaining) (some slaTarget)]
      else []
    else []

/-- BLOCKED STATUS rule. -/
def wiBlockedDets (item : WorkItemIn) : List Detection :=
  let status := item.status.getD ""
  detIf (status = "blocked" ∨ status = "stuck" ∨ status = "on_hold")
    (createDetection "BLOCKED" (wiId item) (wiType item) (wiName item) (7/10) 100)

/-- Embeds `DetectionAgent._detect_work_item_issues` (rules in source order). -/
def detectWorkItemIssues (item : WorkItemIn) : List Detection :=
  wiHandoverDets item ++ wiReworkDets item ++ wiBounceDets item ++
  wiEscalationDets item ++ wiWaitDets item ++ wiSlaDets item ++ wiBlockedDets item

/-- Embeds `DetectionAgent._detect_process_issues`. -/
def detectProcessIssues (p : ProcessIn) : List Detection :=
  let processId := p.process_id.getD "unknown"
  let processName := p.process_name.getD processId
  detIf (truthyS p.bottleneck_stage)
    (createDetection "BOTTLENECK" processId "process" processName (7/10 : ℚ) 30)

/-- The load reading used by `_detect_patterns`: filter keeps entities with a
    truthy `load_percent` or `operator_load`; the value read is
    `load_percent or operator_load-with-default-50`. -/
def patternLoads (entities : List EntityIn) : List ℚ :=
  (entities.filter (fun e => truthyQ e.load_percent ∨ truthyQ e.operator_load)).map
    (fun e => pyOrQ e.load_percent (e.operator_load.getD 50))

/-- Embeds `DetectionAgent._detect_patterns` (load imbalance across entities). -/
def detectPatterns (entities : List EntityIn) : List Detection :=
  let loads := patternLoads entities
  if 2 ≤ loads.length then
    let maxLoad := loads.foldl max (loads.headD 0)
    let minLoad := loads.foldl min (loads.headD 0)
    let variance := maxLoad - minLoad
    detIf (variance ≥ thLoadImbalanceVariance)
      (createDetection "LOAD_IMBALANCE" "all_entities" "system" "Workload Distribution"
        (min (variance / 50) 1) variance (some variance) (some 10))
  else []

/-- Embeds `DetectionAgent.process` applied to an input dict: update the baselines
    from `business`, then entities, work items, processes, cross-entity
    patterns, in this order.  Legacy fallback: empty `entities` falls back to
    `machines + shifts`, empty `work_items` to `workflows`. -/
def detectionProcess (baselines : AgentBaselines) (d : Snapshot) : List Detection :=
  let entities := if d.entities = [] then d.machines ++ d.shifts else d.entities
  let workItems := if d.work_items = [] then d.workflows else d.work_items
  let baselines' := match d.business with
    | some b => updateBaselines b baselines
    | none => baselines
  (entities.map (detectEntityIssues baselines')).flatten ++
  (workItems.map detectWorkItemIssues).flatten ++
  (d.processes.map detectProcessIssues).flatten ++
  (if 1 < entities.length then detectPatterns entities else [])

/-- The post-run baseline state of the detection agent (needed because the
    agent object is shared across runs of one orchestrator). -/
def detectionBaselinesAfter (baselines : AgentBaselines) (d : Snapshot) : AgentBaselines :=
  match d.business with
  | some b => updateBaselines b baselines
  | none => baselines

/-! ## `app/agents/knowledge_graph_agent.py` — `KnowledgeGraphAgent` -/

/-- The graph store owned by one agent instance.  `nodes` is an id → type
    assignment (`metadata` omitted); `edges` is keyed by the `(from, to)`
    pair, insertion-ordered, as a Python dict keyed on tuples. -/
structure Graph where
  nodes : List (String × String) := []
  edges : List (String × String) := []
  deriving DecidableEq, Repr

/-- Embeds `_add_node`: dict upsert keyed by id (re-adding keeps insertion order). -/
def addNode (g : Graph) (nodeId nodeType : String) : Graph :=
  if (g.nodes.map Prod.fst).contains nodeId then
    { g with nodes := g.nodes.map (fun p => if p.1 = nodeId then (nodeId, nodeType) else p) }
  else { g with nodes := g.nodes ++ [(nodeId, nodeType)] }

/-- Embeds `_add_edge`: dict upsert keyed by the `(from, to)` pair. -/
def addEdge (g : Graph) (fromId toId : String) : Graph :=
  if g.edges.contains (fromId, toId) then g
  else { g with edges := g.edges ++ [(fromId, toId)] }

/-- Embeds `_build_graph_from_data`: reads ONLY the legacy keys `machines`,
    `workflows`, `shifts` of the input dict. -/
def buildGraphFromData (d : Snapshot) (g : Graph) : Graph :=
  let g1 := d.machines.foldl (fun g m =>
    match m.machine_id with
    | some mid => if mid = "" then g else addNode g mid "machine"
    | none => g) g
  let g2 := d.shifts.foldl (fun g s =>
    match s.operator_id with
    | some oid =>
      if oid = "" then g else
        s.task_assignments.foldl (fun g t => addEdge g oid t) (addNode g oid "operator")
    | none => g) g1
  let g3 := d.workflows.foldl (fun g w =>
    match w.task_id with
    | some tid =>
      if tid = "" then g else
        let g' := addNode g tid "task"
        (List.range (w.process_sequence.length - 1)).foldl
          (fun g i => addEdge g (w.process_sequence.getD i "") (w.process_sequence.getD (i+1) "")) g'
    | none => g) g2
  -- `_infer_machine_task_relationships`: round-robin `processes` edges
  let machineIds := d.machines.filterMap (fun m => match m.machine_id with
    | some mid => if mid = "" then none else some mid
    | none => none)
  let taskIds := d.workflows.filterMap (fun w => match w.task_id with
    | some tid => if tid = "" then none else some tid
    | none => none)
  if machineIds ≠ [] ∧ taskIds ≠ [] then
    (List.range taskIds.length).foldl (fun g i =>
      addEdge g (machineIds.getD (i % machineIds.length) "") (taskIds.getD i "")) g3
  else g3

/-- One pop of the BFS work queue of `_get_connected_nodes`, iterated on
    explicit fuel (the Python `while queue:` loop terminates because every
    iteration either shrinks the queue or marks an unvisited node; the
    safety claims below hold for every fuel value, hence for the run that
    drains the queue). `visited` is the insertion-ordered id → depth dict. -/
def bfsGo (edges : List (String × String)) (maxDepth : ℕ) :
    ℕ → List (String × ℕ) → List (String × ℕ) → List (String × ℕ)
  | 0, _, visited => visited
  | _ + 1, [], visited => visited
  | fuel + 1, (nodeId, depth) :: queue, visited =>
    if (visited.map Prod.fst).contains nodeId ∨ maxDepth < depth then
      bfsGo edges maxDepth fuel queue visited
    else
      let visited' := visited ++ [(nodeId, depth)]
      let newEntries := edges.foldl (fun acc e =>
        if e.1 = nodeId ∧ ¬ (visited'.map Prod.fst).contains e.2 then acc ++ [(e.2, depth + 1)]
        else if e.2 = nodeId ∧ ¬ (visited'.map Prod.fst).contains e.1 then acc ++ [(e.1, depth + 1)]
        else acc) []
      bfsGo edges maxDepth fuel (queue ++ newEntries) visited'

/-- Embeds `KnowledgeGraphAgent._get_connected_nodes`. -/
def getConnectedNodes (edges : List (String × String)) (startNode : String)
    (maxDepth : ℕ) (fuel : ℕ) : List (String × ℕ) :=
  bfsGo edges maxDepth fuel [(startNode, 0)] []

/-- The per-category affected-node sets of `_analyze_impact`
    (dependency chains omitted: no claim mentions them). -/
structure AffectedNodes where
  affected_machines : List String := []
  affected_operators : List String := []
  affected_tasks : List String := []
  deriving DecidableEq, Repr

/-- Embeds `_analyze_impact`: seeds are read through `detection.get("anomaly_location")`,
    which is not a dumped key of the Detector's detections. -/
def analyzeImpact (g : Graph) (fuel : ℕ) (detections : List Detection) : AffectedNodes :=
  detections.foldl (fun acc d =>
    match d.getStrOpt "anomaly_location" with
    | none => acc
    | some location =>
      if location = "" then acc
      else
        let connected := getConnectedNodes g.edges location 3 fuel
        connected.foldl (fun acc (nd : String × ℕ) =>
          let nodeType := ((g.nodes.find? (fun p => p.1 = nd.1)).map Prod.snd).getD ""
          if nodeType = "machine" then
            { acc with affected_machines :=
                if acc.affected_machines.contains nd.1 then acc.affected_machines
                else acc.affected_machines ++ [nd.1] }
          else if nodeType = "operator" then
            { acc with affected_operators :=
                if acc.affected_operators.contains nd.1 then acc.affected_operators
                else acc.affected_operators ++ [nd.1] }
          else if nodeType = "task" ∨ nodeType = "process" then
            { acc with affected_tasks :=
                if acc.affected_tasks.contains nd.1 then acc.affected_tasks
                else acc.affected_tasks ++ [nd.1] }
          else acc) acc) {}

/-- Embeds `KnowledgeGraphAgent.process`: build/extend the graph, then — only when
    the `detections` context list is truthy (nonempty) — analyze impact.
    Returns the new graph and the optional `affected_nodes` payload
    (`kg_result.get("affected_nodes", {})` yields the empty sets when the
    key is absent). -/
def knowledgeGraphProcess (g : Graph) (fuel : ℕ) (d : Snapshot)
    (detections : List Detection) : Graph × Option AffectedNodes :=
  let g' := buildGraphFromData d g
  if detections = [] then (g', none)
  else (g', some (analyzeImpact g' fuel detections))

/-! ## `app/agents/loss_estimation_agent.py` — `LossEstimationAgent` -/

/-- Ordered-dict upsert `d[k] = d.get(k, 0) + v`. -/
def upsertAdd (m : List (String × ℚ)) (k : String) (v : ℚ) : List (String × ℚ) :=
  if (m.map Prod.fst).contains k then
    m.map (fun p => if p.1 = k then (p.1, p.2 + v) else p)
  else m ++ [(k, v)]

/-- Embeds `LossEstimationAgent._calculate_detection_loss`: every field is read
    from the dumped detection dict through `.get` with a default. -/
def calculateDetectionLoss (d : Detection) (costPerMin : ℚ) (industry : String) : LossResult :=
  lossCalculate (d.getStr "anomaly_type" "UNKNOWN")
    (d.getQ "duration_minutes" 30) (d.getQ "deviation_percent" 10)
    costPerMin industry

/-- Embeds `_estimate_total_duration`. -/
def estimateTotalDuration (detections : List Detection) : ℚ :=
  max (detections.foldl (fun t d => t + d.getQ "duration_minutes" 30) 0) 1

/-- Embeds `_calculate_savings_potential` fix-rate table (`.get(atype, 0.50)`). -/
def fixRate (anomalyType : String) : ℚ :=
  if anomalyType = "IDLE_SPIKE" then (75/100 : ℚ)
  else if anomalyType = "THROUGHPUT_DROP" then (65/100 : ℚ)
  else if anomalyType = "MICRO_DOWNTIME" then (8/10 : ℚ)
  else if anomalyType = "DOWNTIME" then (9/10 : ℚ)
  else if anomalyType = "REWORK_LOOPS" then (6/10 : ℚ)
  else if anomalyType = "EXCESSIVE_HANDOVERS" then (5/10 : ℚ)
  else if anomalyType = "OPERATOR_OVERLOAD" then (55/100 : ℚ)
  else if anomalyType = "UNDERUTILIZATION" then (7/10 : ℚ)
  else if anomalyType = "IDLE_TIME_SPIKE" then (65/100 : ℚ)
  else (5/10 : ℚ)

/-- Embeds `_calculate_savings_potential`. -/
def savingsPotential (totalLoss : ℚ) (detections : List Detection) : ℚ :=
  if detections = [] then totalLoss * (65/100 : ℚ)
  else
    let totalWeight := detections.foldl (fun t d => t + d.getQ "severity_score" (5/10 : ℚ)) 0
    let weightedSum := detections.foldl
      (fun t d => t + fixRate (d.getStr "anomaly_type" "UNKNOWN") * d.getQ "severity_score" (5/10 : ℚ)) 0
    if 0 < totalWeight then totalLoss * (weightedSum / totalWeight)
    else totalLoss * (65/100 : ℚ)

/-- Embeds `_calculate_overall_confidence`. -/
def overallConfidence (individual : List LossResult) (detections : List Detection) : ℚ :=
  if individual = [] then (5/10 : ℚ)
  else
    let avg := (individual.foldl (fun t l => t + l.confidence) 0) / (individual.length : ℚ)
    min (avg + min ((detections.length : ℚ) / 10) 1 * (1/10 : ℚ)) (95/100 : ℚ)

/-- The pydantic `FinancialLoss` MODEL FIELDS, as set by the constructor call
    in `LossEstimationAgent.process` (currency, methodology text, timestamp
    and the SLA counters omitted).  The constructor is also handed the
    keyword arguments `money_lost_per_min`, `money_lost_total`,
    `projected_future_loss` and `by_source`, but those names are `@property`
    accessors on the model, not fields, so pydantic drops them as extras:
    `loss_per_hour`, `loss_per_day`, `projected_24h_loss` and `by_location`
    keep their declared defaults (0 / 0 / 0 / empty dict). -/
structure FinancialLossOut where
  total_loss : ℚ
  loss_per_hour : ℚ := 0
  loss_per_day : ℚ := 0
  projected_24h_loss : ℚ := 0
  savings_if_fixed : ℚ
  breakdown : LossBreakdown
  by_type : List (String × ℚ)
  by_location : List (String × ℚ) := []
  confidence : ℚ
  deriving DecidableEq, Repr

/-- Legacy-compatibility `@property FinancialLoss.by_source`: returns
    `by_location`. -/
def FinancialLossOut.by_source (fl : FinancialLossOut) : List (String × ℚ) :=
  fl.by_location

/-- Legacy-compatibility `@property FinancialLoss.money_lost_per_min`. -/
def FinancialLossOut.money_lost_per_min (fl : FinancialLossOut) : ℚ :=
  fl.loss_per_hour / 60

/-- Legacy-compatibility `@property FinancialLoss.projected_future_loss`. -/
def FinancialLossOut.projected_future_loss (fl : FinancialLossOut) : ℚ :=
  fl.projected_24h_loss

/-- The `by_source` dict computed by `LossEstimationAgent.process` and passed
    to the `FinancialLoss` constructor — and then dropped by pydantic,
    because `by_source` is a `@property`, not a model field. -/
def lossBySourceKwarg (detections : List Detection) (business : Business) :
    List (String × ℚ) :=
  let costPerMin := business.cost_per_min.getD 75
  let industry := business.industry.getD "MANUFACTURING"
  let bySource := detections.foldl (fun m d =>
    upsertAdd m (d.getStr "anomaly_location" "unknown")
      (calculateDetectionLoss d costPerMin industry).estimated_loss) []
  bySource.map (fun p => (p.1, round2 p.2))

/-- The `money_lost_per_min` kwarg computed by `LossEstimationAgent.process`
    (also dropped by the constructor: a `@property` name). -/
def lossMoneyPerMinKwarg (detections : List Detection) (business : Business) : ℚ :=
  let costPerMin := business.cost_per_min.getD 75
  let industry := business.industry.getD "MANUFACTURING"
  let individual := detections.map (fun d => calculateDetectionLoss d costPerMin industry)
  let totalLoss := individual.foldl (fun t l => t + l.estimated_loss) 0
  round2 (totalLoss / max (estimateTotalDuration detections) 1)

/-- Embeds `LossEstimationAgent.process` on the pipeline's `loss_input`:
    the `FinancialLoss` model that the constructor call actually produces.
    The computed `by_source` / `money_lost_per_min` / `money_lost_total` /
    `projected_future_loss` kwargs (see `lossBySourceKwarg`,
    `lossMoneyPerMinKwarg`) are dropped — they target `@property` names —
    so the corresponding fields keep their pydantic defaults. -/
def lossEstimationProcess (detections : List Detection) (business : Business) :
    FinancialLossOut :=
  let costPerMin := business.cost_per_min.getD 75
  let industry := business.industry.getD "MANUFACTURING"
  let individual := detections.map (fun d => calculateDetectionLoss d costPerMin industry)
  let totalLoss := individual.foldl (fun t l => t + l.estimated_loss) 0
  let byType := detections.foldl (fun m d =>
    upsertAdd m (d.getStr "anomaly_type" "UNKNOWN")
      (calculateDetectionLoss d costPerMin industry).estimated_loss) []
  { total_loss := round2 totalLoss
    savings_if_fixed := round2 (savingsPotential totalLoss detections)
    breakdown :=
      { base_loss := individual.foldl (fun t l => t + l.breakdown.base_loss) 0
        industry_adjustment := individual.foldl (fun t l => t + l.breakdown.industry_adjustment) 0
        severity_adjustment := individual.foldl (fun t l => t + l.breakdown.severity_adjustment) 0 }
    by_type := byType.map (fun p => (p.1, round2 p.2))
    confidence := overallConfidence individual detections }

/-! ## `app/agents/optimizer_agent.py` — `OptimizerAgent.execute`

The execute stub is random: `success = random.random() < rate`.  We model the
draw's outcome as an explicit boolean and the returned dict by its exact key
set — the orchestrator only ever inspects `result.get("status")` and
`result.get("details")`, so the keys are what matters. -/

/-- Key set of the dict returned by `OptimizerAgent.execute`. -/
def optimizerExecuteKeys (success : Bool) : List String :=
  if success then ["success", "message", "actual_impact", "details"]
  else ["success", "message", "details"]

/-- Embeds `result.get(key)` on the dict returned by `OptimizerAgent.execute`;
    non-string values are rendered as type sentinels (the orchestrator only
    compares the absent `status` key against `"success"`). -/
def optimizerExecuteGet (success : Bool) (key : String) : Option String :=
  if key = "success" then some "<bool>"
  else if key = "message" then some "<str>"
  else if key = "actual_impact" then (if success then some "<float>" else none)
  else if key = "details" then some "<dict>"
  else none

/-! ## `app/orchestrator/autonomy_modes.py` -/

inductive AutonomyMode where
  | assist | copilot | fullAuto
  deriving DecidableEq, Repr

/-- Embeds `AutonomyMode.from_string`: upper-case, strip, default `FULL_AUTO`. -/
def autonomyModeFromString (s : String) : AutonomyMode :=
  let u := s.toUpper.trim
  if u = "ASSIST" then .assist
  else if u = "COPILOT" then .copilot
  else if u = "FULL_AUTO" then .fullAuto
  else .fullAuto

/-- Embeds `ModeConfig` fields `can_execute` / `requires_approval`. -/
def canExecute : AutonomyMode → Bool
  | .assist => false
  | .copilot => true
  | .fullAuto => true

def requiresApproval : AutonomyMode → Bool
  | .assist => false
  | .copilot => true
  | .fullAuto => false

/-! ## `app/orchestrator/aoia_orchestrator.py` — `AOIAOrchestrator` -/

/-- Legacy machine dict → entity dict: the explicit keys are written first,
    then `**m` re-spreads the original dict, so any key already present in
    `m` wins over the computed one. -/
def machineToEntity (m : EntityIn) : EntityIn :=
  { m with
    entity_id := match m.entity_id with
      | some v => some v
      | none => match m.machine_id with
        | some v => some v
        | none => m.entity_id
    entity_type := m.entity_type.orElse (fun _ => some "machine")
    state := match m.state with
      | some v => some v
      | none => match m.machine_state with
        | some v => some v
        | none => some "active"
    throughput := m.throughput.orElse (fun _ => m.output_per_min)
    load_percent := m.load_percent.orElse (fun _ => m.operator_load) }

/-- Legacy shift dict → entity dict (same `**s` spread semantics). -/
def shiftToEntity (s : EntityIn) : EntityIn :=
  { s with
    entity_id := match s.entity_id with
      | some v => some v
      | none => match s.operator_id with
        | some v => some v
        | none => s.entity_id
    entity_type := s.entity_type.orElse (fun _ => some "operator")
    load_percent := s.load_percent.orElse (fun _ => s.operator_load)
    idle_time_minutes := s.idle_time_minutes.orElse (fun _ => some (s.idle_time.getD 0)) }

/-- Legacy workflow dict → work-item dict (same `**w` spread semantics). -/
def workflowToItem (w : WorkItemIn) : WorkItemIn :=
  { w with
    item_id := match w.item_id with
      | some v => some v
      | none => match w.task_id with
        | some v => some v
        | none => w.item_id
    item_type := w.item_type.orElse (fun _ => some "task")
    duration_minutes := w.duration_minutes.orElse (fun _ => w.task_duration)
    rework_count := w.rework_count.orElse (fun _ => some (w.rework_loops.getD 0))
    handover_count := w.handover_count.orElse (fun _ => some (w.task_transfers.getD 0)) }

/-- Embeds `AOIAOrchestrator._normalize_input`: merge the legacy keys into the
    canonical lists and return a dict holding only the five canonical keys
    (here: the legacy fields are `[]` / defaults). -/
def normalizeInput (d : Snapshot) : Snapshot :=
  let entities := d.entities ++ d.machines.map machineToEntity ++ d.shifts.map shiftToEntity
  let workItems := d.work_items ++ d.workflows.map workflowToItem
  let business :=
    match d.business with
    | none => ({ industry := some "GENERAL", cost_per_hour := some 75 } : Business)
    | some b => b
  let business :=
    if truthyQ business.baseline_output_per_min then
      { business with baseline_throughput := some ((business.baseline_output_per_min.getD 0) * 60) }
    else business
  let business :=
    if truthyQ business.cost_per_min then
      { business with cost_per_hour := some ((business.cost_per_min.getD 0) * 60) }
    else business
  { entities := entities
    work_items := workItems
    processes := d.processes
    events := d.events
    business := some business }

/-- Embeds `_categorize_root_cause`. -/
def categorizeRootCause (ineffType : String) : String :=
  if ineffType = "OVERLOAD" ∨ ineffType = "UNDERUTILIZATION" ∨ ineffType = "LOAD_IMBALANCE"
    then "capacity"
  else if ineffType = "IDLE_TIME" ∨ ineffType = "OFFLINE" then "resource"
  else if ineffType = "WAIT_TIME" ∨ ineffType = "DELAY" ∨ ineffType = "BOTTLENECK"
        ∨ ineffType = "EXCESSIVE_HANDOVERS" ∨ ineffType = "BOUNCE" then "process"
  else if ineffType = "REWORK" then "quality"
  else if ineffType = "ESCALATION" then "complexity"
  else if ineffType = "SLA_RISK" ∨ ineffType = "SLA_BREACH" then "time"
  else if ineffType = "BLOCKED" then "dependency"
  else "general"

/-- Embeds `_calculate_probability`. -/
def calculateProbability (d : Detection) : ℚ :=
  let severity := d.getQ "severity_score" (5/10 : ℚ)
  let deviation := d.getQ "deviation_percent" 10
  min ((7/10 : ℚ) + severity * (15/100 : ℚ) + min (|deviation| / 100) (1/10 : ℚ)) (95/100 : ℚ)

/-- Embeds `RootCauseExplanation` (explanation / summary / evidence prose and ids
    omitted; `impacted_processes` is always `[]` in the source). -/
structure RootCause where
  ineff_type : String
  location : String
  root_cause_category : String
  impacted_entities : List String
  impacted_work_items : List String
  probability_of_correctness : ℚ
  causal_chain_length : ℕ
  deriving DecidableEq, Repr

/-- Causal-chain template length per type (`_build_causal_chain`). -/
def causalChainLength (ineffType : String) : ℕ :=
  if ineffType = "OVERLOAD" then 3
  else if ineffType = "IDLE_TIME" then 2
  else if ineffType = "REWORK" then 3
  else if ineffType = "SLA_BREACH" then 2
  else if ineffType = "BOTTLENECK" then 3
  else 1

/-- Embeds `AOIAOrchestrator._generate_root_causes`.  `affected` is
    `kg_result.get("affected_nodes", {})`, i.e. the empty sets when the KG
    agent attached no analysis. -/
def generateRootCauses (detections : List Detection) (affected : AffectedNodes) :
    List RootCause :=
  detections.map (fun d =>
    let ineffType := pyOrS (d.getStrOpt "inefficiency_type") (d.getStr "anomaly_type" "UNKNOWN")
    let location := pyOrS (d.getStrOpt "location_id") (d.getStr "anomaly_location" "unknown")
    { ineff_type := ineffType
      location := location
      root_cause_category := categorizeRootCause ineffType
      impacted_entities := affected.affected_machines ++ affected.affected_operators
      impacted_work_items := affected.affected_tasks
      probability_of_correctness := calculateProbability d
      causal_chain_length := causalChainLength ineffType })

/-- One slot of the `OptimizationPlan` dicts (`action`, `targets`, plus the
    slot-specific extras). -/
structure PlanSlot where
  action : String
  targets : List String
  urgency : Option String := none
  deriving DecidableEq, Repr

structure OptimizationPlan where
  load_rebalancing : Option PlanSlot := none
  reassignments : Option PlanSlot := none
  priority_changes : Option PlanSlot := none
  capacity_adjustments : Option PlanSlot := none
  process_optimizations : Option PlanSlot := none
  alerts_to_send : Option PlanSlot := none
  potential_savings : ℚ := 0
  steps_count : ℕ := 0
  deriving DecidableEq, Repr

/-- Embeds `AOIAOrchestrator._generate_optimization_plan`: one pass over the
    detections, at most one slot per category; `load_rebalancing`
    accumulates targets, every other slot is overwritten. -/
def generateOptimizationPlan (detections : List Detection)
    (financialLoss : Option FinancialLossOut) : OptimizationPlan :=
  let plan := detections.foldl (fun (plan : OptimizationPlan) d =>
    let ineffType := pyOrS (d.getStrOpt "inefficiency_type") (d.getStr "anomaly_type" "")
    let location := pyOrS (d.getStrOpt "location_id") (d.getStr "anomaly_location" "")
    let plan :=
      if ineffType = "OVERLOAD" ∨ ineffType = "UNDERUTILIZATION" ∨ ineffType = "LOAD_IMBALANCE" then
        { plan with
          load_rebalancing := some
            { action := "REBALANCE_LOAD"
              targets := match plan.load_rebalancing with
                | none => [location]
                | some slot => slot.targets ++ [location] }
          steps_count := plan.steps_count + 1 }
      else plan
    let plan :=
      if ineffType = "SLA_RISK" ∨ ineffType = "SLA_BREACH" then
        { plan with
          priority_changes := some { action := "PRIORITIZE", targets := [location] }
          alerts_to_send := some
            { action := "ALERT_SUPERVISOR", targets := [location]
              urgency := some (if ineffType = "SLA_BREACH" then "high" else "medium") }
          steps_count := plan.steps_count + 1 }
      else plan
    let plan :=
      if ineffType = "EXCESSIVE_HANDOVERS" ∨ ineffType = "BOUNCE" ∨ ineffType = "REWORK" then
        { plan with
          process_optimizations := some { action := "REROUTE", targets := [location] }
          steps_count := plan.steps_count + 1 }
      else plan
    let plan :=
      if ineffType = "BOTTLENECK" then
        { plan with
          capacity_adjustments := some { action := "ADD_CAPACITY", targets := [location] }
          steps_count := plan.steps_count + 1 }
      else plan
    if ineffType = "IDLE_TIME" ∨ ineffType = "BLOCKED" then
      { plan with
        reassignments := some { action := "REASSIGN", targets := [location] }
        steps_count := plan.steps_count + 1 }
    else plan) {}
  { plan with potential_savings := (match financialLoss with
      | some fl => fl.total_loss
      | none => 0) * (65/100 : ℚ) }

/-- Embeds `ExecutionAction` (ids, parameter dict echo, result text and timestamps
    omitted). -/
structure ExecutionAction where
  action_type : String
  target_id : String
  target_type : String
  status : ActionStatus
  requires_approval : Bool := false
  deriving DecidableEq, Repr

/-- Embeds `AOIAOrchestrator._create_pending_actions` (COPILOT): stages at most the
    rebalance and priority actions, all PENDING and requiring approval. -/
def createPendingActions (plan : OptimizationPlan) : List ExecutionAction :=
  (match plan.load_rebalancing with
   | some slot => [{ action_type := "REBALANCE_LOAD"
                     target_id := String.intercalate ", " slot.targets
                     target_type := "entity"
                     status := .pending
                     requires_approval := true }]
   | none => []) ++
  (match plan.priority_changes with
   | some slot => [{ action_type := "PRIORITIZE"
                     target_id := String.intercalate ", " slot.targets
                     target_type := "work_item"
                     status := .pending
                     requires_approval := true }]
   | none => [])

/-- Embeds `AOIAOrchestrator._execute_actions` (FULL_AUTO).  `rng` is the outcome of
    the random draw inside `OptimizerAgent.execute`; the rebalance action's
    status compares `result.get("status")` (an absent key) with `"success"`.
    There is NO branch for `plan.reassignments` or `plan.capacity_adjustments`. -/
def executeActions (plan : OptimizationPlan) (rng : Bool) : List ExecutionAction :=
  (match plan.load_rebalancing with
   | some slot => [{ action_type := "REBALANCE_LOAD"
                     target_id := String.intercalate ", " slot.targets
                     target_type := "entity"
                     status := if optimizerExecuteGet rng "status" = some "success"
                               then .completed else .failed }]
   | none => []) ++
  (match plan.priority_changes with
   | some slot => [{ action_type := "PRIORITIZE"
                     target_id := String.intercalate ", " slot.targets
                     target_type := "work_item"
                     status := .completed }]
   | none => []) ++
  (match plan.alerts_to_send with
   | some slot => [{ action_type := "ALERT_SUPERVISOR"
                     target_id := String.intercalate ", " slot.targets
                     target_type := "entity"
                     status := .completed }]
   | none => []) ++
  (match plan.process_optimizations with
   | some slot => [{ action_type := "REROUTE"
                     target_id := String.intercalate ", " slot.targets
                     target_type := "work_item"
                     status := .completed }]
   | none => [])

/-- The orchestrator state that survives a run: detection-agent baselines and
    the knowledge-graph store. -/
structure OrchestratorState where
  baselines : AgentBaselines := {}
  graph : Graph := {}
  mode : AutonomyMode := .fullAuto
  deriving Repr

/-- Embeds `run_pipeline` output payload (ids, timings, prose omitted). -/
structure PipelineOutput where
  inefficiencies : List Detection
  root_causes : List RootCause
  financial_loss : Option FinancialLossOut
  optimization_plan : Option OptimizationPlan
  actions_executed : List ExecutionAction
  autonomy_mode : AutonomyMode
  status : String
  errors : List String
  deriving Repr

/-- Embeds `AOIAOrchestrator.run_pipeline`, happy path (no stage raises; the agents'
    own `try/except` wrappers mean a data-shaped input never raises — the
    exception path is modelled separately by `pipelineCtl`).  `rng` is the
    random draw inside `OptimizerAgent.execute`; `dryRun` is the `dry_run`
    argument, or-ed with the input's `dry_run` flag. -/
def runPipelineCore (st : OrchestratorState) (input : Snapshot) (dryRun : Bool)
    (rng : Bool) (kgFuel : ℕ) : PipelineOutput × OrchestratorState :=
  let mode := match input.autonomy_mode with
    | some s => autonomyModeFromString s
    | none => st.mode
  let dryRun := dryRun || input.dry_run
  let normalized := normalizeInput input
  let detections := detectionProcess st.baselines normalized
  let baselines' := detectionBaselinesAfter st.baselines normalized
  let kg := knowledgeGraphProcess st.graph kgFuel normalized detections
  let graph' := kg.1
  let affected := kg.2.getD {}
  let rootCauses := generateRootCauses detections affected
  let financialLoss := lossEstimationProcess detections ((normalized.business).getD {})
  let plan := generateOptimizationPlan detections (some financialLoss)
  let actions :=
    if canExecute mode ∧ ¬ dryRun then
      if requiresApproval mode then createPendingActions plan
      else executeActions plan rng
    else []
  ({ inefficiencies := detections
     root_causes := rootCauses
     financial_loss := some financialLoss
     optimization_plan := some plan
     actions_executed := actions
     autonomy_mode := mode
     status := "completed"
     errors := [] },
   { baselines := baselines', graph := graph', mode := mode })

/-! ### Error-path control model of `run_pipeline` (§7 of the spec)

`run_pipeline` wraps all eight stages in one `try`.  The three agent stages
(`Detection`, `KnowledgeGraph`, `LossEstimation`) catch their own exceptions
and surface them as a `status == "error"` marker, which the orchestrator
appends to a run-scoped error list without halting.  Any exception escaping a
stage boundary hits the outer `except`, which returns the failed output with
an empty payload regardless of which stage raised — so the control model
carries a single optional escaped-exception message. -/

structure StagePayloads where
  detections : List Detection := []
  detectionErr : Option String := none
  kgErr : Option String := none
  financialLoss : Option FinancialLossOut := none
  lossErr : Option String := none
  rootCauses : List RootCause := []
  plan : OptimizationPlan := {}
  actions : List ExecutionAction := []

/-- Embeds `run_pipeline`'s status/error bookkeeping: `exn` is an exception escaping
    any stage boundary; `p` holds the stage results and error markers of a
    run in which no exception escaped. -/
def pipelineCtl (mode : AutonomyMode) (exn : Option String) (p : StagePayloads) :
    PipelineOutput :=
  match exn with
  | some e =>
    { inefficiencies := []
      root_causes := []
      financial_loss := none
      optimization_plan := none
      actions_executed := []
      autonomy_mode := mode
      status := "failed"
      errors := [e] }
  | none =>
    let errors :=
      (match p.detectionErr with | some e => ["Detection: " ++ e] | none => []) ++
      (match p.kgErr with | some e => ["KnowledgeGraph: " ++ e] | none => []) ++
      (match p.lossErr with | some e => ["LossEstimation: " ++ e] | none => [])
    { inefficiencies := p.detections
      root_causes := p.rootCauses
      financial_loss := p.financialLoss
      optimization_plan := some p.plan
      actions_executed := p.actions
      autonomy_mode := mode
      status := if errors = [] then "completed" else "completed_with_errors"
      errors := errors }

/-- The §8 end-to-end scenario snapshot: entity "Agent_23" at 92% load,
    busy, queue 8; one work item breaching its 45-minute SLA by 2 minutes
    (47 elapsed against an 18-minute baseline); business cost 12 per minute;
    FULL_AUTO. -/
def agent23Snapshot : Snapshot :=
  { entities := [{ entity_id := some "Agent_23", load_percent := some 92,
                   state := some "busy", queue_size := some 8 }]
    work_items := [{ item_id := some "WI-1", sla_remaining_minutes := some (-2),
                     sla_target_minutes := some 45, duration_minutes := some 47 }]
    business := some { cost_per_min := some 12, baseline_resolution_time_minutes := some 18 }
    autonomy_mode := some "FULL_AUTO" }

/-- Every rule output is a `_create_detection` result. -/
def IsCreated (d : Detection) : Prop :=
  ∃ t l lt ln s dev cv ev, d = createDetection t l lt ln s dev cv ev

/-! # Theorems -/

/-! ## Shared helper lemmas -/

/-- A rational with at most two decimal places is fixed by `round2`. -/
theorem round2_eq_self {q : ℚ} (h : ∃ n : ℤ, q * 100 = (n : ℚ)) : round2 q = q := by
  obtain ⟨n, hn⟩ := h
  unfold round2
  rw [hn, round_intCast]
  have h100 : (100 : ℚ) ≠ 0 := by norm_num
  field_simp at hn ⊢
  linarith [hn]

/-- Every industry multiplier is an integer number of tenths. -/
theorem industryMultiplier_tenths (i : String) : ∃ m : ℤ, industryMultiplier i = m / 10 := by
  unfold industryMultiplier
  split_ifs <;> [exact ⟨12, by norm_num⟩; exact ⟨8, by norm_num⟩; exact ⟨11, by norm_num⟩;
    exact ⟨9, by norm_num⟩; exact ⟨15, by norm_num⟩; exact ⟨10, by norm_num⟩;
    exact ⟨10, by norm_num⟩]

/-- Every anomaly-type weight is an integer number of tenths. -/
theorem anomalyWeight_tenths (t : String) : ∃ w : ℤ, anomalyWeight t = w / 10 := by
  unfold anomalyWeight
  split_ifs <;> [exact ⟨8, by norm_num⟩; exact ⟨12, by norm_num⟩; exact ⟨7, by norm_num⟩;
    exact ⟨13, by norm_num⟩; exact ⟨15, by norm_num⟩; exact ⟨11, by norm_num⟩;
    exact ⟨9, by norm_num⟩; exact ⟨6, by norm_num⟩; exact ⟨20, by norm_num⟩;
    exact ⟨10, by norm_num⟩]

/-- Embeds `estimated_loss` of `calculate` is the rounded exact adjusted loss. -/
theorem lossCalculate_estimated_eq (t i : String) (dur dev cost : ℚ) :
    (lossCalculate t dur dev cost i).estimated_loss = round2 (lossAdjusted t i dur dev cost) := by
  unfold lossCalculate lossAdjusted lossBase
  rfl

/-- Shifting the accumulator out of an additive fold. -/
theorem foldl_add_shift {α : Type} (f : α → ℚ) :
    ∀ (l : List α) (a : ℚ), l.foldl (fun t d => t + f d) a = a + l.foldl (fun t d => t + f d) 0 := by
  intro l
  induction l with
  | nil => intro a; simp
  | cons x xs ih =>
    intro a
    simp only [List.foldl_cons]
    rw [ih (a + f x), ih (0 + f x)]
    ring

/-- Pointwise sums of three additive folds collapse into one. -/
theorem foldl_add_pointwise {α : Type} {f g h k : α → ℚ}
    (hpt : ∀ d, f d + g d + h d = k d) (dets : List α) :
    dets.foldl (fun s d => s + f d) 0 + dets.foldl (fun s d => s + g d) 0
      + dets.foldl (fun s d => s + h d) 0 = dets.foldl (fun s d => s + k d) 0 := by
  induction dets with
  | nil => simp
  | cons x xs ih =>
    simp only [List.foldl_cons]
    rw [foldl_add_shift f, foldl_add_shift g, foldl_add_shift h, foldl_add_shift k]
    have := hpt x
    linarith

/-- Folding a same-key upsert over a singleton map accumulates the sum. -/
theorem foldl_upsertAdd_singleton {α : Type} (k : String) (f : α → ℚ) :
    ∀ (l : List α) (acc : ℚ),
      l.foldl (fun m d => upsertAdd m k (f d)) [(k, acc)]
        = [(k, l.foldl (fun s d => s + f d) acc)] := by
  intro l
  induction l with
  | nil => intro acc; rfl
  | cons x xs ih =>
    intro acc
    simp only [List.foldl_cons]
    have hup : upsertAdd [(k, acc)] k (f x) = [(k, acc + f x)] := by
      simp [upsertAdd]
    rw [hup, ih]

/-! ## C5 — loss formula, linearity and the concrete 0.2×30×75 case -/

/-- C5: `LossCalculator.calculate` returns
    `estimated_loss = round2(|deviation|/100 × duration × cost ×
    industry_multiplier × type_weight)` with the multipliers drawn from the two
    fixed lookup tables; the exact (pre-rounding) loss is linear in
    `duration_minutes` and in `cost_per_minute`; and for deviation 20%,
    duration 30 min, cost 75/min the returned loss is exactly
    `0.2 × 30 × 75 × M × W` for every industry and anomaly type. -/
theorem lossCalculate_formula_linear :
    (∀ (t i : String) (dur dev cost : ℚ),
        (lossCalculate t dur dev cost i).estimated_loss
          = round2 ((|dev| / 100) * dur * cost * industryMultiplier i * anomalyWeight t)) ∧
    (∀ (t i : String) (dev cost a d1 d2 : ℚ),
        lossAdjusted t i (d1 + d2) dev cost
            = lossAdjusted t i d1 dev cost + lossAdjusted t i d2 dev cost ∧
        lossAdjusted t i (a * d1) dev cost = a * lossAdjusted t i d1 dev cost) ∧
    (∀ (t i : String) (dev dur a c1 c2 : ℚ),
        lossAdjusted t i dur dev (c1 + c2)
            = lossAdjusted t i dur dev c1 + lossAdjusted t i dur dev c2 ∧
        lossAdjusted t i dur dev (a * c1) = a * lossAdjusted t i dur dev c1) ∧
    (∀ (t i : String),
        (lossCalculate t 30 20 75 i).estimated_loss
          = (0.2 * 30 * 75) * industryMultiplier i * anomalyWeight t) := by
  refine ⟨?_, ?_, ?_, ?_⟩
  · intro t i dur dev cost
    rw [lossCalculate_estimated_eq]
    unfold lossAdjusted lossBase
    ring_nf
  · intro t i dev cost a d1 d2
    unfold lossAdjusted lossBase
    constructor <;> ring
  · intro t i dev dur a c1 c2
    unfold lossAdjusted lossBase
    constructor <;> ring
  · intro t i
    rw [lossCalculate_estimated_eq]
    obtain ⟨m, hm⟩ := industryMultiplier_tenths i
    obtain ⟨w, hw⟩ := anomalyWeight_tenths t
    have habs : |(20 : ℚ)| = 20 := by norm_num
    have hval : lossAdjusted t i 30 20 75
        = (0.2 * 30 * 75) * industryMultiplier i * anomalyWeight t := by
      unfold lossAdjusted lossBase
      rw [habs]
      ring
    rw [hval, round2_eq_self]
    refine ⟨450 * m * w, ?_⟩
    rw [hm, hw]
    push_cast
    ring

/-! ## C6 — breakdown components sum exactly to the loss -/

/-- C6: in exact rational arithmetic (i.e. before the per-component rounding
    to two decimals), `base_loss + industry_adjustment + severity_adjustment`
    equals the adjusted loss — per `LossCalculator.calculate` result, and
    summed over every detection of a `LossEstimationAgent.process` aggregate,
    whose breakdown fields are exactly the sums of the per-detection rounded
    components. -/
theorem lossBreakdown_sums_exact :
    (∀ (t i : String) (dur dev cost : ℚ),
        lossBase dur dev cost + lossIndustryAdjustment t i dur dev cost
          + lossSeverityAdjustment t i dur dev cost = lossAdjusted t i dur dev cost) ∧
    (∀ (t i : String) (dur dev cost : ℚ),
        (lossCalculate t dur dev cost i).estimated_loss
          = round2 (lossBase dur dev cost + lossIndustryAdjustment t i dur dev cost
              + lossSeverityAdjustment t i dur dev cost)) ∧
    (∀ (dets : List Detection) (cost : ℚ) (ind : String),
        dets.foldl (fun s d => s
            + lossBase (d.getQ "duration_minutes" 30) (d.getQ "deviation_percent" 10) cost) 0
          + dets.foldl (fun s d => s
              + lossIndustryAdjustment (d.getStr "anomaly_type" "UNKNOWN") ind
                  (d.getQ "duration_minutes" 30) (d.getQ "deviation_percent" 10) cost) 0
          + dets.foldl (fun s d => s
              + lossSeverityAdjustment (d.getStr "anomaly_type" "UNKNOWN") ind
                  (d.getQ "duration_minutes" 30) (d.getQ "deviation_percent" 10) cost) 0
          = dets.foldl (fun s d => s
              + lossAdjusted (d.getStr "anomaly_type" "UNKNOWN") ind
                  (d.getQ "duration_minutes" 30) (d.getQ "deviation_percent" 10) cost) 0) ∧
    (∀ (dets : List Detection) (b : Business),
        (lossEstimationProcess dets b).breakdown.base_loss
            = dets.foldl (fun s d => s + (calculateDetectionLoss d (b.cost_per_min.getD 75)
                (b.industry.getD "MANUFACTURING")).breakdown.base_loss) 0 ∧
        (lossEstimationProcess dets b).breakdown.industry_adjustment
            = dets.foldl (fun s d => s + (calculateDetectionLoss d (b.cost_per_min.getD 75)
                (b.industry.getD "MANUFACTURING")).breakdown.industry_adjustment) 0 ∧
        (lossEstimationProcess dets b).breakdown.severity_adjustment
            = dets.foldl (fun s d => s + (calculateDetectionLoss d (b.cost_per_min.getD 75)
                (b.industry.getD "MANUFACTURING")).breakdown.severity_adjustment) 0 ∧
        (lossEstimationProcess dets b).total_loss
            = round2 (dets.foldl (fun s d => s + (calculateDetectionLoss d (b.cost_per_min.getD 75)
                (b.industry.getD "MANUFACTURING")).estimated_loss) 0)) := by
  refine ⟨?_, ?_, ?_, ?_⟩
  · intro t i dur dev cost
    simp only [lossBase, lossIndustryAdjustment, lossSeverityAdjustment, lossAdjusted]
    ring
  · intro t i dur dev cost
    rw [lossCalculate_estimated_eq]
    congr 1
    simp only [lossBase, lossIndustryAdjustment, lossSeverityAdjustment, lossAdjusted]
    ring
  · intro dets cost ind
    refine foldl_add_pointwise (fun d => ?_) dets
    simp only [lossBase, lossIndustryAdjustment, lossSeverityAdjustment, lossAdjusted]
    ring
  · intro dets b
    unfold lossEstimationProcess
    refine ⟨?_, ?_, ?_, ?_⟩ <;> simp [List.foldl_map]

/-! ## C10 — per-detection defaults hold; the aggregate `by_source` kwarg is dropped (corrected)

The per-detection half of the claim is true: a dumped Detector detection has
no `anomaly_type` / `anomaly_location` / `duration_minutes` keys, so every
detection is priced as `"UNKNOWN"` (type weight 1.0), source `"unknown"`,
duration 30, and `by_type = {"UNKNOWN": total_loss}`.  The `by_source`
conjunct is false of the program: the agent computes
`by_source = {"unknown": total_loss}` and passes it to the `FinancialLoss`
constructor, but `by_source` is a `@property` (backed by the `by_location`
field), not a model field, so pydantic drops the kwarg and the resulting
model's `by_source` is the empty dict. -/

set_option maxRecDepth 8192 in
/-- C10 counterexample: at a concrete one-detection run the resulting
    `FinancialLoss` has `by_source = {}`, not `{"unknown": total_loss}` —
    even though the agent did compute `{"unknown": total_loss}` and passed
    it to the constructor. -/
theorem lossAgent_by_source_dropped_counterexample :
    (lossEstimationProcess [createDetection "OVERLOAD" "e1" "entity" "e1" (6/10) 12 none none]
        { cost_per_min := some 12 }).by_source = [] ∧
    ¬ ((lossEstimationProcess [createDetection "OVERLOAD" "e1" "entity" "e1" (6/10) 12 none none]
        { cost_per_min := some 12 }).by_source
      = [("unknown", (lossEstimationProcess
          [createDetection "OVERLOAD" "e1" "entity" "e1" (6/10) 12 none none]
          { cost_per_min := some 12 }).total_loss)]) ∧
    lossBySourceKwarg [createDetection "OVERLOAD" "e1" "entity" "e1" (6/10) 12 none none]
        { cost_per_min := some 12 }
      = [("unknown", (lossEstimationProcess
          [createDetection "OVERLOAD" "e1" "entity" "e1" (6/10) 12 none none]
          { cost_per_min := some 12 }).total_loss)] := by
  refine ⟨rfl, ?_, ?_⟩ <;> with_unfolding_all decide

/-- C10 (amended): a dumped Detector detection has no `anomaly_type`,
    `anomaly_location` or `duration_minutes` keys, so
    `LossEstimationAgent._calculate_detection_loss` prices every detection as
    anomaly type `"UNKNOWN"` (whose type weight is 1.0) over 30 minutes, and
    (for a nonempty detection list) the aggregate has
    `by_type = {"UNKNOWN": total_loss}`; the computed
    `by_source = {"unknown": total_loss}` kwarg is dropped by the pydantic
    constructor (a `@property` name, not a field), so the resulting
    `FinancialLoss` has `by_source = {}`. -/
theorem lossAgent_unknown_defaults_amended :
    (∀ (d : Detection) (cost : ℚ) (ind : String),
        calculateDetectionLoss d cost ind
          = lossCalculate "UNKNOWN" 30 d.deviation_percent cost ind) ∧
    anomalyWeight "UNKNOWN" = 1 ∧
    (∀ (dets : List Detection) (b : Business), dets ≠ [] →
        (lossEstimationProcess dets b).by_type
            = [("UNKNOWN", (lossEstimationProcess dets b).total_loss)] ∧
        lossBySourceKwarg dets b
            = [("unknown", (lossEstimationProcess dets b).total_loss)] ∧
        (lossEstimationProcess dets b).by_source = []) := by
  refine ⟨?_, ?_, ?_⟩
  · intro d cost ind
    rfl
  · decide
  · intro dets b hne
    match dets, hne with
    | d :: rest, _ =>
      unfold lossEstimationProcess lossBySourceKwarg
      simp only [List.foldl_cons, List.foldl_map]
      have h0 : upsertAdd [] "UNKNOWN"
          (calculateDetectionLoss d (b.cost_per_min.getD 75)
            (b.industry.getD "MANUFACTURING")).estimated_loss
          = [("UNKNOWN", (0 : ℚ) + (calculateDetectionLoss d (b.cost_per_min.getD 75)
            (b.industry.getD "MANUFACTURING")).estimated_loss)] := by
        simp [upsertAdd]
      have h0' : upsertAdd [] "unknown"
          (calculateDetectionLoss d (b.cost_per_min.getD 75)
            (b.industry.getD "MANUFACTURING")).estimated_loss
          = [("unknown", (0 : ℚ) + (calculateDetectionLoss d (b.cost_per_min.getD 75)
            (b.industry.getD "MANUFACTURING")).estimated_loss)] := by
        simp [upsertAdd]
      have hgetT : ∀ (x : Detection), x.getStr "anomaly_type" "UNKNOWN" = "UNKNOWN" := by
        intro x; rfl
      have hgetS : ∀ (x : Detection), x.getStr "anomaly_location" "unknown" = "unknown" := by
        intro x; rfl
      simp only [hgetT, hgetS, h0, h0',
        foldl_upsertAdd_singleton "UNKNOWN"
          (fun x : Detection => (calculateDetectionLoss x (b.cost_per_min.getD 75)
            (b.industry.getD "MANUFACTURING")).estimated_loss),
        foldl_upsertAdd_singleton "unknown"
          (fun x : Detection => (calculateDetectionLoss x (b.cost_per_min.getD 75)
            (b.industry.getD "MANUFACTURING")).estimated_loss)]
      refine ⟨rfl, rfl, rfl⟩

/-- C10 witness: the amended claim at a concrete one-detection run. -/
theorem lossAgent_unknown_defaults_amended_witness :
    (lossEstimationProcess [createDetection "SLA_BREACH" "w1" "work_item" "w1" 1 2 none none]
        { cost_per_min := some 12 }).by_type
      = [("UNKNOWN", (lossEstimationProcess
          [createDetection "SLA_BREACH" "w1" "work_item" "w1" 1 2 none none]
          { cost_per_min := some 12 }).total_loss)] ∧
    (lossEstimationProcess [createDetection "SLA_BREACH" "w1" "work_item" "w1" 1 2 none none]
        { cost_per_min := some 12 }).by_source = [] :=
  ⟨(lossAgent_unknown_defaults_amended.2.2
      [createDetection "SLA_BREACH" "w1" "work_item" "w1" 1 2 none none]
      { cost_per_min := some 12 } (by decide)).1,
   (lossAgent_unknown_defaults_amended.2.2
      [createDetection "SLA_BREACH" "w1" "work_item" "w1" 1 2 none none]
      { cost_per_min := some 12 } (by decide)).2.2⟩

/-! ## Detection helper lemmas -/

theorem mem_detIf {c : Prop} [Decidable c] {x d : Detection} : d ∈ detIf c x ↔ c ∧ d = x := by
  unfold detIf
  split <;> simp_all

theorem isCreated_of_mem_detIf {c : Prop} [Decidable c]
    {t l lt ln : String} {s dev : ℚ} {cv ev : Option ℚ} {d : Detection}
    (h : d ∈ detIf c (createDetection t l lt ln s dev cv ev)) : IsCreated d :=
  ⟨t, l, lt, ln, s, dev, cv, ev, (mem_detIf.mp h).2⟩

theorem mem_detectEntityIssues_isCreated {bl : AgentBaselines} {e : EntityIn} {d : Detection}
    (h : d ∈ detectEntityIssues bl e) : IsCreated d := by
  unfold detectEntityIssues at h
  simp only [List.mem_append] at h
  rcases h with ((((h | h) | h) | h) | h)
  · exact isCreated_of_mem_detIf h
  · exact isCreated_of_mem_detIf h
  · split at h
    · simp only [List.mem_singleton] at h
      exact ⟨_, _, _, _, _, _, _, _, h⟩
    · split at h
      · simp only [List.mem_singleton] at h
        exact ⟨_, _, _, _, _, _, _, _, h⟩
      · simp at h
  · exact isCreated_of_mem_detIf h
  · exact isCreated_of_mem_detIf h

theorem mem_wiSlaDets_isCreated {item : WorkItemIn} {d : Detection}
    (h : d ∈ wiSlaDets item) : IsCreated d := by
  unfold wiSlaDets at h
  split at h
  · simp at h
  · dsimp only at h
    split at h
    · split at h
      · simp only [List.mem_singleton] at h
        exact ⟨_, _, _, _, _, _, _, _, h⟩
      · split at h
        · simp only [List.mem_singleton] at h
          exact ⟨_, _, _, _, _, _, _, _, h⟩
        · simp at h
    · simp at h

theorem mem_detectWorkItemIssues_isCreated {item : WorkItemIn} {d : Detection}
    (h : d ∈ detectWorkItemIssues item) : IsCreated d := by
  unfold detectWorkItemIssues at h
  simp only [List.mem_append] at h
  rcases h with ((((((h | h) | h) | h) | h) | h) | h)
  · exact isCreated_of_mem_detIf h
  · exact isCreated_of_mem_detIf h
  · exact isCreated_of_mem_detIf h
  · exact isCreated_of_mem_detIf h
  · exact isCreated_of_mem_detIf h
  · exact mem_wiSlaDets_isCreated h
  · exact isCreated_of_mem_detIf h

theorem mem_detectProcessIssues_isCreated {p : ProcessIn} {d : Detection}
    (h : d ∈ detectProcessIssues p) : IsCreated d := by
  unfold detectProcessIssues at h
  exact isCreated_of_mem_detIf h

theorem mem_detectPatterns_isCreated {es : List EntityIn} {d : Detection}
    (h : d ∈ detectPatterns es) : IsCreated d := by
  unfold detectPatterns at h
  dsimp only at h
  split at h
  · exact isCreated_of_mem_detIf h
  · simp at h

theorem mem_patterns_ite_isCreated {c : Prop} [Decidable c] {es : List EntityIn} {d : Detection}
    (h : d ∈ (if c then detectPatterns es else [])) : IsCreated d := by
  split at h
  · exact mem_detectPatterns_isCreated h
  · simp at h

theorem mem_detectionProcess_isCreated {bl : AgentBaselines} {snap : Snapshot} {d : Detection}
    (h : d ∈ detectionProcess bl snap) : IsCreated d := by
  unfold detectionProcess at h
  dsimp only at h
  generalize (if snap.entities = [] then snap.machines ++ snap.shifts else snap.entities) = ents at h
  simp only [List.mem_append, List.mem_flatten, List.mem_map] at h
  rcases h with (((⟨_, ⟨e, _, rfl⟩, hd⟩ | ⟨_, ⟨w, _, rfl⟩, hd⟩) | ⟨_, ⟨p, _, rfl⟩, hd⟩) | h)
  · exact mem_detectEntityIssues_isCreated hd
  · exact mem_detectWorkItemIssues_isCreated hd
  · exact mem_detectProcessIssues_isCreated hd
  · exact mem_patterns_ite_isCreated h

theorem createDetection_score_bounds (t l lt ln : String) (s dev : ℚ) (cv ev : Option ℚ) :
    0 ≤ (createDetection t l lt ln s dev cv ev).severity_score ∧
      (createDetection t l lt ln s dev cv ev).severity_score ≤ 1 := by
  unfold createDetection
  exact ⟨le_min (le_max_right s 0) (by norm_num), min_le_right _ 1⟩

theorem createDetection_level_eq (t l lt ln : String) (s dev : ℚ) (cv ev : Option ℚ) :
    (createDetection t l lt ln s dev cv ev).severity_level
      = severityLevelOf (createDetection t l lt ln s dev cv ev).severity_score := rfl

theorem severityLevelOf_low_iff (s : ℚ) : severityLevelOf s = .low ↔ s < 3/10 := by
  unfold severityLevelOf
  split_ifs with h1 h2 h3 <;> simp_all

theorem severityLevelOf_medium_iff (s : ℚ) :
    severityLevelOf s = .medium ↔ 3/10 ≤ s ∧ s < 6/10 := by
  unfold severityLevelOf
  split_ifs with h1 h2 h3 <;> simp_all

theorem severityLevelOf_high_iff (s : ℚ) :
    severityLevelOf s = .high ↔ 6/10 ≤ s ∧ s < 85/100 := by
  unfold severityLevelOf
  split_ifs with h1 h2 h3 <;> simp_all
  all_goals first | linarith | (intro h; linarith)

theorem severityLevelOf_critical_iff (s : ℚ) :
    severityLevelOf s = .critical ↔ 85/100 ≤ s := by
  unfold severityLevelOf
  split_ifs with h1 h2 h3 <;> simp_all <;> linarith

/-! ## C3 — detection severities are clamped to [0,1] and bucketed by the fixed cutoffs -/

/-- C3: every detection produced by `DetectionAgent.process` has
    `severity_score ∈ [0,1]` (the raw rule value is clamped before
    bucketing), and its `severity_level` is exactly the fixed-cutoff bucket:
    low iff < 0.3, medium iff in [0.3, 0.6), high iff in [0.6, 0.85),
    critical iff ≥ 0.85. -/
theorem detection_severity_clamped_and_bucketed
    (bl : AgentBaselines) (snap : Snapshot) (d : Detection)
    (h : d ∈ detectionProcess bl snap) :
    (0 ≤ d.severity_score ∧ d.severity_score ≤ 1) ∧
    (d.severity_level = .low ↔ d.severity_score < 3/10) ∧
    (d.severity_level = .medium ↔ 3/10 ≤ d.severity_score ∧ d.severity_score < 6/10) ∧
    (d.severity_level = .high ↔ 6/10 ≤ d.severity_score ∧ d.severity_score < 85/100) ∧
    (d.severity_level = .critical ↔ 85/100 ≤ d.severity_score) := by
  obtain ⟨t, l, lt, ln, s, dev, cv, ev, rfl⟩ := mem_detectionProcess_isCreated h
  refine ⟨createDetection_score_bounds t l lt ln s dev cv ev, ?_, ?_, ?_, ?_⟩ <;>
    rw [createDetection_level_eq]
  · exact severityLevelOf_low_iff _
  · exact severityLevelOf_medium_iff _
  · exact severityLevelOf_high_iff _
  · exact severityLevelOf_critical_iff _

/-- C3 witness: the single BLOCKED detection of a one-entity snapshot. -/
theorem detection_severity_clamped_and_bucketed_witness :
    (0 ≤ (createDetection "BLOCKED" "e1" "entity" "e1" (7/10) 100).severity_score ∧
      (createDetection "BLOCKED" "e1" "entity" "e1" (7/10) 100).severity_score ≤ 1) ∧
    ((createDetection "BLOCKED" "e1" "entity" "e1" (7/10) 100).severity_level = .low ↔
      (createDetection "BLOCKED" "e1" "entity" "e1" (7/10) 100).severity_score < 3/10) ∧
    ((createDetection "BLOCKED" "e1" "entity" "e1" (7/10) 100).severity_level = .medium ↔
      3/10 ≤ (createDetection "BLOCKED" "e1" "entity" "e1" (7/10) 100).severity_score ∧
        (createDetection "BLOCKED" "e1" "entity" "e1" (7/10) 100).severity_score < 6/10) ∧
    ((createDetection "BLOCKED" "e1" "entity" "e1" (7/10) 100).severity_level = .high ↔
      6/10 ≤ (createDetection "BLOCKED" "e1" "entity" "e1" (7/10) 100).severity_score ∧
        (createDetection "BLOCKED" "e1" "entity" "e1" (7/10) 100).severity_score < 85/100) ∧
    ((createDetection "BLOCKED" "e1" "entity" "e1" (7/10) 100).severity_level = .critical ↔
      85/100 ≤ (createDetection "BLOCKED" "e1" "entity" "e1" (7/10) 100).severity_score) :=
  detection_severity_clamped_and_bucketed {}
    { entities := [{ entity_id := some "e1", state := some "blocked" }] }
    (createDetection "BLOCKED" "e1" "entity" "e1" (7/10) 100) (by with_unfolding_all decide)

/-! ## C4 — SLA breach/risk rule -/

theorem types_detIf {c : Prop} [Decidable c] {t l lt ln : String} {s dev : ℚ}
    {cv ev : Option ℚ} :
    ∀ d ∈ detIf c (createDetection t l lt ln s dev cv ev), d.inefficiency_type = t := by
  intro d h
  rw [(mem_detIf.mp h).2]
  rfl

theorem wiHandoverDets_types (item : WorkItemIn) :
    ∀ d ∈ wiHandoverDets item, d.inefficiency_type = "EXCESSIVE_HANDOVERS" := by
  unfold wiHandoverDets
  exact types_detIf

theorem wiReworkDets_types (item : WorkItemIn) :
    ∀ d ∈ wiReworkDets item, d.inefficiency_type = "REWORK" := by
  unfold wiReworkDets
  exact types_detIf

theorem wiBounceDets_types (item : WorkItemIn) :
    ∀ d ∈ wiBounceDets item, d.inefficiency_type = "BOUNCE" := by
  unfold wiBounceDets
  exact types_detIf

theorem wiEscalationDets_types (item : WorkItemIn) :
    ∀ d ∈ wiEscalationDets item, d.inefficiency_type = "ESCALATION" := by
  unfold wiEscalationDets
  exact types_detIf

theorem wiWaitDets_types (item : WorkItemIn) :
    ∀ d ∈ wiWaitDets item, d.inefficiency_type = "WAIT_TIME" := by
  unfold wiWaitDets
  exact types_detIf

theorem wiBlockedDets_types (item : WorkItemIn) :
    ∀ d ∈ wiBlockedDets item, d.inefficiency_type = "BLOCKED" := by
  unfold wiBlockedDets
  exact types_detIf

theorem filter_eq_nil_of_types {l : List Detection} {ty other : String}
    (hl : ∀ d ∈ l, d.inefficiency_type = ty) (hne : (ty == other) = false) :
    l.filter (fun d => d.inefficiency_type == other) = [] := by
  induction l with
  | nil => rfl
  | cons x xs ih =>
    have hx := hl x (List.mem_cons_self x xs)
    have hrest := ih (fun d hd => hl d (List.mem_cons_of_mem _ hd))
    simp [List.filter_cons, hx, hne, hrest]

/-- Under the C4 hypotheses the SLA rule's output is the explicit three-way
    case split on `pct = r/t×100`. -/
theorem wiSlaDets_eq (item : WorkItemIn) (r t : ℚ)
    (hr : item.sla_remaining_minutes = some r)
    (ht : item.sla_target_minutes = some t) (ht0 : t ≠ 0) :
    wiSlaDets item =
      if r / t * 100 ≤ 0 then
        [createDetection "SLA_BREACH" (wiId item) (wiType item) (wiName item)
          1 |r| (some r) (some 0)]
      else if r / t * 100 ≤ 20 then
        [createDetection "SLA_RISK" (wiId item) (wiType item) (wiName item)
          (min ((20 - r / t * 100) / 20 + 5/10) 1) (20 - r / t * 100) (some r) (some t)]
      else [] := by
  unfold wiSlaDets
  have htr : truthyQ item.sla_target_minutes = true := by
    simp [truthyQ, ht, ht0]
  simp only [hr, htr, if_true, ht, Option.getD_some, thSlaRemainingPercent]
  simp [truthyQ, ht0]

/-- C4: for a work item with `sla_remaining_minutes = r` present and
    `sla_target_minutes = t ≠ 0`, with `pct = r/t×100`: if `pct ≤ 0` the
    Detector emits exactly one SLA_BREACH for the item, with severity 1.0;
    if `0 < pct ≤ 20` it emits exactly one SLA_RISK, with severity
    `min((20−pct)/20 + 0.5, 1)`; and it never emits both for one item. -/
theorem sla_breach_risk_rule (item : WorkItemIn) (r t : ℚ)
    (hr : item.sla_remaining_minutes = some r)
    (ht : item.sla_target_minutes = some t) (ht0 : t ≠ 0) :
    (r / t * 100 ≤ 0 →
      (detectWorkItemIssues item).filter (fun d => d.inefficiency_type == "SLA_BREACH")
          = [createDetection "SLA_BREACH" (wiId item) (wiType item) (wiName item)
              1 |r| (some r) (some 0)] ∧
      (createDetection "SLA_BREACH" (wiId item) (wiType item) (wiName item)
          1 |r| (some r) (some 0)).severity_score = 1) ∧
    (0 < r / t * 100 → r / t * 100 ≤ 20 →
      (detectWorkItemIssues item).filter (fun d => d.inefficiency_type == "SLA_RISK")
          = [createDetection "SLA_RISK" (wiId item) (wiType item) (wiName item)
              (min ((20 - r / t * 100) / 20 + 5/10) 1) (20 - r / t * 100)
              (some r) (some t)] ∧
      (createDetection "SLA_RISK" (wiId item) (wiType item) (wiName item)
          (min ((20 - r / t * 100) / 20 + 5/10) 1) (20 - r / t * 100)
          (some r) (some t)).severity_score
        = min ((20 - r / t * 100) / 20 + 5/10) 1) ∧
    ¬((detectWorkItemIssues item).filter (fun d => d.inefficiency_type == "SLA_BREACH") ≠ [] ∧
      (detectWorkItemIssues item).filter (fun d => d.inefficiency_type == "SLA_RISK") ≠ []) := by
  have hsla := wiSlaDets_eq item r t hr ht ht0
  have hseg : ∀ other : String,
      ("EXCESSIVE_HANDOVERS" == other) = false → ("REWORK" == other) = false →
      ("BOUNCE" == other) = false → ("ESCALATION" == other) = false →
      ("WAIT_TIME" == other) = false → ("BLOCKED" == other) = false →
      (detectWorkItemIssues item).filter (fun d => d.inefficiency_type == other)
        = (wiSlaDets item).filter (fun d => d.inefficiency_type == other) := by
    intro other h1 h2 h3 h4 h5 h6
    unfold detectWorkItemIssues
    simp only [List.filter_append,
      filter_eq_nil_of_types (wiHandoverDets_types item) h1,
      filter_eq_nil_of_types (wiReworkDets_types item) h2,
      filter_eq_nil_of_types (wiBounceDets_types item) h3,
      filter_eq_nil_of_types (wiEscalationDets_types item) h4,
      filter_eq_nil_of_types (wiWaitDets_types item) h5,
      filter_eq_nil_of_types (wiBlockedDets_types item) h6,
      List.nil_append, List.append_nil]
  have hbreach := hseg "SLA_BREACH" (by decide) (by decide) (by decide) (by decide)
    (by decide) (by decide)
  have hrisk := hseg "SLA_RISK" (by decide) (by decide) (by decide) (by decide)
    (by decide) (by decide)
  refine ⟨fun hpct => ?_, fun hpct1 hpct2 => ?_, ?_⟩
  · constructor
    · rw [hbreach, hsla, if_pos hpct]
      simp [createDetection]
    · simp only [createDetection]
      norm_num
  · constructor
    · rw [hrisk, hsla, if_neg (by linarith), if_pos hpct2]
      simp [createDetection]
    · have hnn : 0 ≤ min ((20 - r / t * 100) / 20 + 5/10) 1 :=
        le_min (by linarith) (by norm_num)
      have hle : min ((20 - r / t * 100) / 20 + 5/10) 1 ≤ 1 := min_le_right _ _
      simp only [createDetection]
      rw [max_eq_left hnn, min_eq_left hle]
  · rintro ⟨hb, hk⟩
    by_cases hpct : r / t * 100 ≤ 0
    · apply hk
      rw [hrisk, hsla, if_pos hpct]
      simp [createDetection]
    · apply hb
      rw [hbreach, hsla, if_neg hpct]
      split
      · simp [createDetection]
      · rfl

/-- C4 witness: a breached item (`r = −2`, `t = 45`) yields one SLA_BREACH. -/
theorem sla_breach_risk_rule_witness :
    (detectWorkItemIssues { sla_remaining_minutes := some (-2), sla_target_minutes := some 45 }
        ).filter (fun d => d.inefficiency_type == "SLA_BREACH")
      = [createDetection "SLA_BREACH"
          (wiId { sla_remaining_minutes := some (-2), sla_target_minutes := some 45 })
          (wiType { sla_remaining_minutes := some (-2), sla_target_minutes := some 45 })
          (wiName { sla_remaining_minutes := some (-2), sla_target_minutes := some 45 })
          1 |(-2 : ℚ)| (some (-2)) (some 0)] :=
  ((sla_breach_risk_rule { sla_remaining_minutes := some (-2), sla_target_minutes := some 45 }
      (-2) 45 rfl rfl (by norm_num)).1 (by norm_num)).1

/-! ## C7 — BFS visits each node at most once and respects `max_depth` -/

/-- Embeds `y` is reachable from `start` in at most `n` undirected edge hops
    (edges are matched by either endpoint, as in `_get_connected_nodes`). -/
inductive ReachableWithin (edges : List (String × String)) (start : String) :
    ℕ → String → Prop
  | refl (n : ℕ) : ReachableWithin edges start n start
  | step {n : ℕ} {x y : String} (hx : ReachableWithin edges start n x)
      (hxy : (x, y) ∈ edges ∨ (y, x) ∈ edges) : ReachableWithin edges start (n + 1) y

theorem ReachableWithin.mono {edges : List (String × String)} {start : String}
    {n m : ℕ} {x : String} (h : ReachableWithin edges start n x) (hnm : n ≤ m) :
    ReachableWithin edges start m x := by
  induction h generalizing m with
  | refl _ => exact .refl m
  | @step k x y hx hxy ih =>
    obtain ⟨m', rfl⟩ : ∃ m', m = m' + 1 := ⟨m - 1, by omega⟩
    exact .step (ih (by omega)) hxy

/-- Members of the new-entry fold of one BFS round are neighbours of the
    popped node at depth `d+1`. -/
theorem bfs_newEntries_spec (edges : List (String × String)) (n : String) (d : ℕ)
    (vis : List String) :
    ∀ (es : List (String × String)) (acc : List (String × ℕ)),
      es ⊆ edges →
      (∀ x ∈ acc, x.2 = d + 1 ∧ ((n, x.1) ∈ edges ∨ (x.1, n) ∈ edges)) →
      ∀ x ∈ es.foldl (fun acc e =>
          if e.1 = n ∧ ¬ (vis.contains e.2) then acc ++ [(e.2, d + 1)]
          else if e.2 = n ∧ ¬ (vis.contains e.1) then acc ++ [(e.1, d + 1)]
          else acc) acc,
        x.2 = d + 1 ∧ ((n, x.1) ∈ edges ∨ (x.1, n) ∈ edges) := by
  intro es
  induction es with
  | nil =>
    intro acc _ hacc x hx
    exact hacc x hx
  | cons e es ih =>
    intro acc hsub hacc x hx
    simp only [List.foldl_cons] at hx
    have he : e ∈ edges := hsub (List.mem_cons_self e es)
    have hsub' : es ⊆ edges := fun a ha => hsub (List.mem_cons_of_mem e ha)
    refine ih _ hsub' ?_ x hx
    intro y hy
    split at hy
    · rcases List.mem_append.mp hy with hy | hy
      · exact hacc y hy
      · simp only [List.mem_singleton] at hy
        subst hy
        rename_i hcond
        obtain ⟨rfl, -⟩ := hcond
        exact ⟨rfl, Or.inl (by simpa using he)⟩
    · split at hy
      · rcases List.mem_append.mp hy with hy | hy
        · exact hacc y hy
        · simp only [List.mem_singleton] at hy
          subst hy
          rename_i hcond
          obtain ⟨rfl, -⟩ := hcond
          exact ⟨rfl, Or.inr (by simpa using he)⟩
      · exact hacc y hy

/-- The BFS loop invariant: visited ids stay distinct, visited depths stay
    within `maxDepth` and witness reachability, queue entries witness
    reachability at their queued depth. -/
theorem bfsGo_invariant (edges : List (String × String)) (start : String) (maxDepth : ℕ) :
    ∀ (fuel : ℕ) (queue visited : List (String × ℕ)),
      ((visited.map Prod.fst).Nodup) →
      (∀ nd ∈ visited, nd.2 ≤ maxDepth ∧ ReachableWithin edges start nd.2 nd.1) →
      (∀ nd ∈ queue, ReachableWithin edges start nd.2 nd.1) →
      ((bfsGo edges maxDepth fuel queue visited).map Prod.fst).Nodup ∧
      (∀ nd ∈ bfsGo edges maxDepth fuel queue visited,
        nd.2 ≤ maxDepth ∧ ReachableWithin edges start nd.2 nd.1) := by
  intro fuel
  induction fuel with
  | zero =>
    intro queue visited hnd hvis _
    exact ⟨hnd, hvis⟩
  | succ fuel ih =>
    intro queue visited hnd hvis hq
    match queue with
    | [] => exact ⟨hnd, hvis⟩
    | (nodeId, depth) :: queue =>
      rw [bfsGo]
      split
      · exact ih queue visited hnd hvis (fun nd hnd => hq nd (List.mem_cons_of_mem _ hnd))
      · rename_i hcond
        rw [not_or] at hcond
        obtain ⟨hnotvis, hdep⟩ := hcond
        refine ih _ _ ?_ ?_ ?_
        · simp only [List.map_append, List.map_cons, List.map_nil]
          rw [List.nodup_append]
          refine ⟨hnd, List.nodup_singleton _, ?_⟩
          intro a ha
          simp only [List.mem_singleton]
          intro hb
          subst hb
          exact hnotvis (List.elem_iff.mpr ha)
        · intro nd hnd'
          rcases List.mem_append.mp hnd' with h | h
          · exact hvis nd h
          · simp only [List.mem_singleton] at h
            subst h
            exact ⟨by omega, hq _ (List.mem_cons_self _ _)⟩
        · intro nd hnd'
          rcases List.mem_append.mp hnd' with h | h
          · exact hq nd (List.mem_cons_of_mem _ h)
          · have hspec := bfs_newEntries_spec edges nodeId depth
              (((visited ++ [(nodeId, depth)]).map Prod.fst)) edges []
              (fun a ha => ha) (by simp) nd h
            obtain ⟨hd2, hadj⟩ := hspec
            rw [hd2]
            exact .step (hq _ (List.mem_cons_self _ _)) hadj

/-- C7: `_get_connected_nodes` never records a node twice, every recorded
    node lies within `max_depth` undirected hops of the seed (for every fuel
    bound on the loop, hence for the terminating run), and on the directed
    chain A→B→C→D with `max_depth = 2` the reachable set is exactly
    {A, B, C} — D is excluded. -/
theorem bfs_no_revisit_depth_bounded :
    (∀ (edges : List (String × String)) (startNode : String) (maxDepth fuel : ℕ),
      ((getConnectedNodes edges startNode maxDepth fuel).map Prod.fst).Nodup ∧
      (∀ nd ∈ getConnectedNodes edges startNode maxDepth fuel,
        nd.2 ≤ maxDepth ∧ ReachableWithin edges startNode maxDepth nd.1)) ∧
    ((getConnectedNodes [("A", "B"), ("B", "C"), ("C", "D")] "A" 2 32).map Prod.fst
        = ["A", "B", "C"]) := by
  constructor
  · intro edges startNode maxDepth fuel
    have h := bfsGo_invariant edges startNode maxDepth fuel [(startNode, 0)] []
      (by simp) (by simp) ?_
    · exact ⟨h.1, fun nd hnd => ⟨(h.2 nd hnd).1,
        ((h.2 nd hnd).2).mono (h.2 nd hnd).1⟩⟩
    · intro nd hnd
      simp only [List.mem_singleton] at hnd
      subst hnd
      exact .refl 0
  · with_unfolding_all decide

/-- C7 witness: instantiating the invariant on the concrete chain. -/
theorem bfs_no_revisit_depth_bounded_witness :
    ((getConnectedNodes [("A", "B"), ("B", "C"), ("C", "D")] "A" 2 32).map Prod.fst).Nodup ∧
    (("B", 1).2 ≤ 2 ∧
      ReachableWithin [("A", "B"), ("B", "C"), ("C", "D")] "A" 2 ("B", 1).1) :=
  ⟨(bfs_no_revisit_depth_bounded.1 [("A", "B"), ("B", "C"), ("C", "D")] "A" 2 32).1,
   (bfs_no_revisit_depth_bounded.1 [("A", "B"), ("B", "C"), ("C", "D")] "A" 2 32).2
     ("B", 1) (by with_unfolding_all decide)⟩

/-! ## C8 — status/error bookkeeping of `run_pipeline` -/

/-- C8: `run_pipeline` reports `"completed"` iff its run-scoped error list is
    empty; stage error markers leave the partial payload intact and give
    `"completed_with_errors"`; only an exception escaping a stage boundary
    gives `"failed"` with the empty payload. -/
theorem pipeline_status_errors (mode : AutonomyMode) (exn : Option String)
    (p : StagePayloads) :
    ((pipelineCtl mode exn p).status = "completed" ↔ (pipelineCtl mode exn p).errors = []) ∧
    (exn = none →
      ((pipelineCtl mode exn p).inefficiencies = p.detections ∧
       (pipelineCtl mode exn p).root_causes = p.rootCauses ∧
       (pipelineCtl mode exn p).financial_loss = p.financialLoss ∧
       (pipelineCtl mode exn p).optimization_plan = some p.plan ∧
       (pipelineCtl mode exn p).actions_executed = p.actions) ∧
      ((p.detectionErr ≠ none ∨ p.kgErr ≠ none ∨ p.lossErr ≠ none) →
        (pipelineCtl mode exn p).status = "completed_with_errors")) ∧
    (∀ e, exn = some e →
      (pipelineCtl mode exn p).status = "failed" ∧
      (pipelineCtl mode exn p).inefficiencies = [] ∧
      (pipelineCtl mode exn p).root_causes = [] ∧
      (pipelineCtl mode exn p).financial_loss = none ∧
      (pipelineCtl mode exn p).optimization_plan = none ∧
      (pipelineCtl mode exn p).actions_executed = [] ∧
      (pipelineCtl mode exn p).errors = [e]) := by
  rcases exn with _ | e
  · rcases hd : p.detectionErr with _ | d <;> rcases hk : p.kgErr with _ | k <;>
      rcases hl : p.lossErr with _ | l <;>
      simp [pipelineCtl, hd, hk, hl]
  · simp [pipelineCtl]

/-- C8 witness: an escaped exception at a concrete run. -/
theorem pipeline_status_errors_witness :
    (pipelineCtl .fullAuto (some "boom") {}).status = "failed" ∧
    (pipelineCtl .fullAuto (some "boom") {}).inefficiencies = [] ∧
    (pipelineCtl .fullAuto (some "boom") {}).root_causes = [] ∧
    (pipelineCtl .fullAuto (some "boom") {}).financial_loss = none ∧
    (pipelineCtl .fullAuto (some "boom") {}).optimization_plan = none ∧
    (pipelineCtl .fullAuto (some "boom") {}).actions_executed = [] ∧
    (pipelineCtl .fullAuto (some "boom") {}).errors = ["boom"] :=
  (pipeline_status_errors .fullAuto (some "boom") {}).2.2 "boom" rfl

/-! ## C9 — the normalized snapshot starves the graph and the impact analysis -/

theorem foldl_const {α β : Type} (l : List α) (init : β) :
    l.foldl (fun acc _ => acc) init = init := by
  induction l generalizing init with
  | nil => rfl
  | cons x xs ih => exact ih init

/-- C9: `_normalize_input` emits only the five canonical keys, so the graph
    builder (which reads only the legacy `machines`/`workflows`/`shifts`
    keys) never adds a node or an edge during a pipeline run; the impact
    analyzer looks up `anomaly_location`, which no dumped Detector detection
    carries, so the affected sets are always empty; hence every
    `RootCauseExplanation` of `run_pipeline` has empty `impacted_entities`
    and `impacted_work_items`. -/
theorem pipeline_graph_unchanged_and_impact_empty :
    (∀ input : Snapshot,
      (normalizeInput input).machines = [] ∧ (normalizeInput input).shifts = [] ∧
        (normalizeInput input).workflows = []) ∧
    (∀ (input : Snapshot) (g : Graph), buildGraphFromData (normalizeInput input) g = g) ∧
    (∀ (g : Graph) (fuel : ℕ) (dets : List Detection), analyzeImpact g fuel dets = {}) ∧
    (∀ (st : OrchestratorState) (input : Snapshot) (dryRun rng : Bool) (fuel : ℕ),
      (runPipelineCore st input dryRun rng fuel).2.graph = st.graph ∧
      ∀ rc ∈ (runPipelineCore st input dryRun rng fuel).1.root_causes,
        rc.impacted_entities = [] ∧ rc.impacted_work_items = []) := by
  have hkeys : ∀ input : Snapshot,
      (normalizeInput input).machines = [] ∧ (normalizeInput input).shifts = [] ∧
        (normalizeInput input).workflows = [] := by
    intro input
    exact ⟨rfl, rfl, rfl⟩
  have hbuild : ∀ (input : Snapshot) (g : Graph),
      buildGraphFromData (normalizeInput input) g = g := by
    intro input g
    obtain ⟨h1, h2, h3⟩ := hkeys input
    unfold buildGraphFromData
    simp only [h1, h2, h3, List.foldl_nil, List.filterMap_nil, ne_eq, not_true_eq_false,
      false_and, if_false]
  have hget : ∀ d : Detection, d.getStrOpt "anomaly_location" = none := fun _ => rfl
  have himpact : ∀ (g : Graph) (fuel : ℕ) (dets : List Detection),
      analyzeImpact g fuel dets = {} := by
    intro g fuel dets
    unfold analyzeImpact
    simp only [hget]
    exact foldl_const dets ({} : AffectedNodes)
  refine ⟨hkeys, hbuild, himpact, ?_⟩
  intro st input dryRun rng fuel
  have haff : (knowledgeGraphProcess st.graph fuel (normalizeInput input)
      (detectionProcess st.baselines (normalizeInput input))).2.getD {} = {} := by
    unfold knowledgeGraphProcess
    split <;> simp [himpact]
  constructor
  · show (knowledgeGraphProcess st.graph fuel (normalizeInput input)
        (detectionProcess st.baselines (normalizeInput input))).1 = st.graph
    unfold knowledgeGraphProcess
    split <;> simp [hbuild]
  · intro rc hrc
    have hrc' : rc ∈ generateRootCauses
        (detectionProcess st.baselines (normalizeInput input))
        ((knowledgeGraphProcess st.graph fuel (normalizeInput input)
          (detectionProcess st.baselines (normalizeInput input))).2.getD {}) := hrc
    rw [haff] at hrc'
    unfold generateRootCauses at hrc'
    obtain ⟨d, _, rfl⟩ := List.mem_map.mp hrc'
    exact ⟨rfl, rfl⟩

/-- C9 witness: concrete run over the §8 snapshot leaves the empty graph
    empty and yields impact-free root causes. -/
theorem pipeline_graph_unchanged_and_impact_empty_witness :
    (runPipelineCore {} agent23Snapshot false true 20).2.graph = ({} : OrchestratorState).graph ∧
    ((runPipelineCore {} agent23Snapshot false true 20).1.root_causes.all
      (fun rc => rc.impacted_entities.isEmpty && rc.impacted_work_items.isEmpty)) = true := by
  have h := (pipeline_graph_unchanged_and_impact_empty.2.2.2 {} agent23Snapshot false true 20)
  refine ⟨h.1, ?_⟩
  rw [List.all_eq_true]
  intro rc hrc
  have := h.2 rc hrc
  simp [this.1, this.2, List.isEmpty]

/-! ## C1 — autonomy mode gates execution -/

theorem mem_createPendingActions {plan : OptimizationPlan} {a : ExecutionAction}
    (h : a ∈ createPendingActions plan) :
    a.status = .pending ∧ a.requires_approval = true := by
  unfold createPendingActions at h
  rcases List.mem_append.mp h with h | h <;>
    · split at h <;> simp only [List.mem_singleton, List.not_mem_nil] at h
      · subst h
        exact ⟨rfl, rfl⟩

theorem optimizerExecuteGet_status (rng : Bool) :
    optimizerExecuteGet rng "status" = none := rfl

theorem mem_executeActions {plan : OptimizationPlan} {rng : Bool} {a : ExecutionAction}
    (h : a ∈ executeActions plan rng) :
    a.status = .completed ∨ a.status = .failed := by
  unfold executeActions at h
  simp only [List.mem_append] at h
  rcases h with ((h | h) | h) | h <;>
    · split at h <;> simp only [List.mem_singleton, List.not_mem_nil] at h
      · subst h
        first
          | exact Or.inl rfl
          | · right
              simp [optimizerExecuteGet_status]

/-- C1: with dry-run off, the resolved autonomy mode gates what
    `run_pipeline` executes: ASSIST stages and executes nothing; COPILOT
    stages only PENDING actions that require approval; FULL_AUTO yields only
    COMPLETED or FAILED actions — never PENDING. -/
theorem autonomy_mode_gates_execution (st : OrchestratorState) (input : Snapshot)
    (rng : Bool) (fuel : ℕ) (hdry : input.dry_run = false) :
    ((runPipelineCore st input false rng fuel).1.autonomy_mode = .assist →
        (runPipelineCore st input false rng fuel).1.actions_executed = []) ∧
    ((runPipelineCore st input false rng fuel).1.autonomy_mode = .copilot →
        ∀ a ∈ (runPipelineCore st input false rng fuel).1.actions_executed,
          a.status = .pending ∧ a.requires_approval = true) ∧
    ((runPipelineCore st input false rng fuel).1.autonomy_mode = .fullAuto →
        ∀ a ∈ (runPipelineCore st input false rng fuel).1.actions_executed,
          a.status = .completed ∨ a.status = .failed) := by
  have hmode : (runPipelineCore st input false rng fuel).1.autonomy_mode
      = match input.autonomy_mode with
        | some s => autonomyModeFromString s
        | none => st.mode := rfl
  have hact : (runPipelineCore st input false rng fuel).1.actions_executed
      = (if canExecute ((runPipelineCore st input false rng fuel).1.autonomy_mode)
            ∧ ¬ (false || input.dry_run)
         then if requiresApproval ((runPipelineCore st input false rng fuel).1.autonomy_mode)
              then createPendingActions (generateOptimizationPlan
                (detectionProcess st.baselines (normalizeInput input))
                (some (lossEstimationProcess
                  (detectionProcess st.baselines (normalizeInput input))
                  (((normalizeInput input).business).getD {}))))
              else executeActions (generateOptimizationPlan
                (detectionProcess st.baselines (normalizeInput input))
                (some (lossEstimationProcess
                  (detectionProcess st.baselines (normalizeInput input))
                  (((normalizeInput input).business).getD {})))) rng
         else []) := rfl
  refine ⟨fun hm => ?_, fun hm => ?_, fun hm => ?_⟩
  · rw [hact, hm]
    simp [canExecute]
  · intro a ha
    rw [hact, hm] at ha
    rw [hdry] at ha
    simp only [canExecute, requiresApproval, Bool.or_false, Bool.not_false, and_true,
      if_true, reduceIte] at ha
    exact mem_createPendingActions ha
  · intro a ha
    rw [hact, hm] at ha
    rw [hdry] at ha
    simp only [canExecute, requiresApproval, Bool.or_false, Bool.not_false, and_true,
      if_true, reduceIte] at ha
    exact mem_executeActions ha

/-- C1 witness: an ASSIST run of the §8 snapshot executes nothing. -/
theorem autonomy_mode_gates_execution_witness :
    (runPipelineCore {} { agent23Snapshot with autonomy_mode := some "ASSIST" }
        false true 20).1.actions_executed = [] :=
  (autonomy_mode_gates_execution {} { agent23Snapshot with autonomy_mode := some "ASSIST" }
      true 20 rfl).1 (by with_unfolding_all decide)

/-! ## C2 — the §8 end-to-end scenario (corrected)

The scenario's detections and positive loss hold, and COMPLETED actions do
exist, but no executed action references reassignment: the plan maps
OVERLOAD to `load_rebalancing` (a REBALANCE_LOAD action) and SLA_BREACH to
`priority_changes`/`alerts_to_send`; `reassignments` is only populated by
IDLE_TIME/BLOCKED detections, and `_execute_actions` has no branch for it
anyway.  Moreover the REBALANCE_LOAD action always carries status FAILED,
because `_execute_actions` compares `result.get("status")` — a key the
`OptimizerAgent.execute` dict does not have — against `"success"`. -/

/-- C2 counterexample: in the §8 scenario under FULL_AUTO (for either
    outcome of the random execute draw) no executed action is a
    reassignment at all — a fortiori none is COMPLETED and references
    reassignment — and the completed actions are exactly the PRIORITIZE and
    ALERT_SUPERVISOR ones. -/
theorem agent23_scenario_counterexample :
    ((runPipelineCore {} agent23Snapshot false true 20).1.actions_executed.all
        (fun a => a.action_type != "REASSIGN")) = true ∧
    ((runPipelineCore {} agent23Snapshot false false 20).1.actions_executed.all
        (fun a => a.action_type != "REASSIGN")) = true ∧
    (((runPipelineCore {} agent23Snapshot false true 20).1.actions_executed.filter
        (fun a => a.status == .completed)).map (fun a => a.action_type)
      = ["PRIORITIZE", "ALERT_SUPERVISOR"]) ∧
    (((runPipelineCore {} agent23Snapshot false false 20).1.actions_executed.filter
        (fun a => a.status == .completed)).map (fun a => a.action_type)
      = ["PRIORITIZE", "ALERT_SUPERVISOR"]) := by
  refine ⟨?_, ?_, ?_, ?_⟩ <;> with_unfolding_all decide

/-- C2 (amended): the §8 scenario under FULL_AUTO yields (for either outcome
    of the random execute draw) at least 2 detections including one OVERLOAD
    and one SLA_BREACH, a non-null `FinancialLoss` with `total_loss > 0`, and
    at least one COMPLETED `ExecutionAction` — but none referencing
    reassignment; the load-redistribution action REBALANCE_LOAD is emitted
    with status FAILED. -/
theorem agent23_scenario_amended : ∀ rng : Bool,
    2 ≤ (runPipelineCore {} agent23Snapshot false rng 20).1.inefficiencies.length ∧
    "OVERLOAD" ∈ (runPipelineCore {} agent23Snapshot false rng 20).1.inefficiencies.map
      (fun d => d.inefficiency_type) ∧
    "SLA_BREACH" ∈ (runPipelineCore {} agent23Snapshot false rng 20).1.inefficiencies.map
      (fun d => d.inefficiency_type) ∧
    (∃ fl, (runPipelineCore {} agent23Snapshot false rng 20).1.financial_loss = some fl ∧
      0 < fl.total_loss) ∧
    (∃ a ∈ (runPipelineCore {} agent23Snapshot false rng 20).1.actions_executed,
      a.status = .completed) ∧
    ((runPipelineCore {} agent23Snapshot false rng 20).1.actions_executed.all
      (fun a => a.action_type != "REASSIGN")) = true ∧
    (∃ a ∈ (runPipelineCore {} agent23Snapshot false rng 20).1.actions_executed,
      a.action_type = "REBALANCE_LOAD" ∧ a.status = .failed) := by
  intro rng
  cases rng <;> with_unfolding_all decide

end AOIA
